import Mathlib

/-!
Verification of the registration validation and subscription-derivation engine
of hellomama-registration (`registrations/tasks.py`).

The engine is embedded shallowly:

* Python dict `registration.data` becomes an association list `Data` of
  `String × Value`, where `Value` covers the JSON-ish payload values the
  engine manipulates (strings, ints, and the lists of strings it writes to
  `invalid_fields`).
* Python exceptions (`KeyError`, `TypeError`, `DoesNotExist`) become the
  `Except PyErr` monad; code that cannot raise stays pure.
* External collaborators (identity address lookup, message-set short-name
  resolution and schedule/sequence lookup; `utils.py` of this repository,
  declared out of scope by the spec) are parameters in an `Env` structure.
* Django model rows and side effects become an explicit `DB` state holding
  the registration rows and an ordered event trace of created
  `SubscriptionRequest` rows and dispatched outbound messages.
* `datetime.strptime(date, "%Y%m%d")` is translated from CPython's
  `_strptime` regex semantics: `%Y` is exactly four digits, `%m` matches
  `1[0-2]|0[1-9]|[1-9]`, `%d` matches `3[01]|[12]\d|0[1-9]|[1-9]`, the
  alternations are tried in order with backtracking, the first match found
  wins, and a match that leaves unconverted characters raises `ValueError`.
  Digits are modelled as ASCII `0`-`9`.
-/

/-- A Python value stored in a registration's `data` dict: the engine only
ever manipulates strings, ints (computed weeks) and lists of strings
(collected invalid fields). -/
inductive Value where
  | s (v : String)
  | i (v : Int)
  | l (v : List String)
deriving DecidableEq, Repr

/-- Python's `SomeError` values that the embedded code can raise. -/
inductive PyErr where
  | keyError (k : String)
  | typeError
  | doesNotExist
deriving DecidableEq, Repr

/-- `registration.data`: a dict from string keys to values, as an
association list in insertion order. -/
abbrev Data := List (String × Value)

/-- `d.get(k)` (no raise): the value stored at `k`, if any. Dict keys are
unique, so the first binding decides. -/
def Data.get? : Data → String → Option Value
  | [], _ => none
  | p :: rest, k => if p.1 == k then some p.2 else Data.get? rest k

/-- `d[k]`: raises `KeyError` when the key is absent. -/
def Data.getItem (d : Data) (k : String) : Except PyErr Value :=
  match d.get? k with
  | some v => .ok v
  | none => .error (.keyError k)

/-- `d[k] = v`: replace the existing binding in place, or append a new
key at the end, as a Python dict does. -/
def Data.set : Data → String → Value → Data
  | [], k, v => [(k, v)]
  | p :: rest, k, v => if p.1 == k then (k, v) :: rest else p :: Data.set rest k v

/-- `d.keys()`. -/
def Data.keys (d : Data) : List String :=
  List.map (fun p => p.1) d

/-- Python `value == some_string` between a stored value and a string
literal: strings compare by content, any other type compares unequal
(no raise). -/
def valueEqStr (v : Value) (t : String) : Bool :=
  match v with
  | .s u => u == t
  | _ => false

/-- Python `value in list_of_strings`: membership for strings, `False` for
any other type (no raise). -/
def valueIn (v : Value) (ts : List String) : Bool :=
  match v with
  | .s u => ts.contains u
  | _ => false

/-- Python `"%s" % value`: `str()` of the value. -/
def valueFormat (v : Value) : String :=
  match v with
  | .s u => u
  | .i n => toString n
  | .l xs =>
      "[" ++ String.intercalate ", "
        (xs.map (fun x => String.singleton '\'' ++ x ++ String.singleton '\'')) ++ "]"

/-! ## Calendar arithmetic

`datetime.date.toordinal`: proleptic Gregorian ordinal, day 1 = 0001-01-01.
-/

/-- Gregorian leap-year test. -/
def isLeapYear (y : Nat) : Bool :=
  (y % 4 == 0 && y % 100 != 0) || y % 400 == 0

/-- Days in a given month of a given year. -/
def daysInMonth (y m : Nat) : Nat :=
  if m == 2 then (if isLeapYear y then 29 else 28)
  else if m == 4 || m == 6 || m == 9 || m == 11 then 30
  else 31

/-- Cumulative days before month `m` in a non-leap year. -/
def daysBeforeMonth (m : Nat) : Nat :=
  List.getD [0, 0, 31, 59, 90, 120, 151, 181, 212, 243, 273, 304, 334] m 0

/-- `datetime.date(y, m, d).toordinal()`. -/
def toOrdinal (y m d : Nat) : Int :=
  (365 * (y - 1) + (y - 1) / 4 + (y - 1) / 400 : Int) - ((y - 1) / 100 : Nat)
    + daysBeforeMonth m + (if 2 < m && isLeapYear y then 1 else 0) + d

/-! ## `datetime.strptime(date, "%Y%m%d")` -/

/-- Numeric value of an ASCII digit. -/
def digitVal (c : Char) : Nat := c.toNat - 48

/-- The ordered candidate parses of `%m` = `1[0-2]|0[1-9]|[1-9]` at the head
of `cs`: each candidate is the month value and the remaining characters,
listed in the order the regex alternation tries them. -/
def monthParses (cs : List Char) : List (Nat × List Char) :=
  (match cs with
   | c1 :: c2 :: rest =>
       (if c1 == '1' && '0' ≤ c2 && c2 ≤ '2' then [(10 + digitVal c2, rest)] else [])
       ++ (if c1 == '0' && '1' ≤ c2 && c2 ≤ '9' then [(digitVal c2, rest)] else [])
   | _ => [])
  ++ (match cs with
      | c1 :: rest => if '1' ≤ c1 && c1 ≤ '9' then [(digitVal c1, rest)] else []
      | [] => [])

/-- The ordered candidate parses of `%d` = `3[01]|[12]\d|0[1-9]|[1-9]`. -/
def dayParses (cs : List Char) : List (Nat × List Char) :=
  (match cs with
   | c1 :: c2 :: rest =>
       (if c1 == '3' && '0' ≤ c2 && c2 ≤ '1' then [(30 + digitVal c2, rest)] else [])
       ++ (if ('1' ≤ c1 && c1 ≤ '2') && ('0' ≤ c2 && c2 ≤ '9') then
             [(10 * digitVal c1 + digitVal c2, rest)] else [])
       ++ (if c1 == '0' && '1' ≤ c2 && c2 ≤ '9' then [(digitVal c2, rest)] else [])
   | _ => [])
  ++ (match cs with
      | c1 :: rest => if '1' ≤ c1 && c1 ≤ '9' then [(digitVal c1, rest)] else []
      | [] => [])

/-- The first full-pattern match of `%m%d` on `cs`, in regex backtracking
order (month alternatives outermost): the month, the day, and whatever
characters the match did not consume. -/
def firstMD (cs : List Char) : Option (Nat × Nat × List Char) :=
  (List.flatMap (monthParses cs) (fun p => (dayParses p.2).map (fun q => (p.1, q.1, q.2)))).head?

/-- A real calendar day acceptable to `datetime.date` (year ≥ 1). -/
def dateOk (y m d : Nat) : Bool :=
  1 ≤ y && 1 ≤ m && m ≤ 12 && 1 ≤ d && d ≤ daysInMonth y m

/-- `datetime.strptime(s, "%Y%m%d")`: four digits of year, then the first
regex match of `%m%d`; raises (here: `none`) when the pattern does not
match, when unconverted characters remain, or when the matched numbers are
not a real calendar date. -/
def strptimeYmd (s : String) : Option (Nat × Nat × Nat) :=
  match s.data with
  | c1 :: c2 :: c3 :: c4 :: rest =>
      if c1.isDigit && c2.isDigit && c3.isDigit && c4.isDigit then
        match firstMD rest with
        | some (m, d, remaining) =>
            if remaining.isEmpty then
              let y := digitVal c1 * 1000 + digitVal c2 * 100 + digitVal c3 * 10 + digitVal c4
              if dateOk y m d then some (y, m, d) else none
            else none
        | none => none
      else none
  | _ => none

/-- `tasks.is_valid_date` on a string: `strptime` succeeds. The bare
`except` in the source catches every failure, so the function is total. -/
def is_valid_date (date : String) : Bool :=
  (strptimeYmd date).isSome

/-- `tasks.is_valid_date` on an arbitrary stored value: `strptime` raises
`TypeError` on non-strings, which the bare `except` also catches. -/
def is_valid_date_value (date : Value) : Bool :=
  match date with
  | .s u => is_valid_date u
  | _ => false

/-! ## The remaining field validators (`registrations/tasks.py`) -/

/-- `tasks.is_valid_uuid` on a string: a 36-character shape check.
Python's `and` short-circuits, so indexing is guarded by the length test. -/
def is_valid_uuid (id : String) : Bool :=
  id.length == 36 && List.getD id.data 14 ' ' == '4'
    && ["a", "b", "8", "9"].contains (String.singleton (List.getD id.data 19 ' '))

/-- `tasks.is_valid_uuid` on an arbitrary stored value: `len()` raises
`TypeError` on an int; on a list of strings, length and indexing work and
the elements are compared with the one-character strings. -/
def is_valid_uuid_value (id : Value) : Except PyErr Bool :=
  match id with
  | .s u => .ok (is_valid_uuid u)
  | .i _ => .error .typeError
  | .l xs =>
      .ok (xs.length == 36 && List.getD xs 14 "" == "4"
        && ["a", "b", "8", "9"].contains (List.getD xs 19 ""))

/-- The Django settings the engine reads, as explicit parameters. -/
structure Settings where
  LANGUAGES : List String
  MSG_TYPES : List String
  RECEIVER_TYPES : List String
  PREBIRTH_MIN_WEEKS : Int
  PREBIRTH_MAX_WEEKS : Int
  POSTBIRTH_MIN_WEEKS : Int
  POSTBIRTH_MAX_WEEKS : Int
  PUBLIC_HOST : String
  MOTHER_WELCOME_TEXT_NG_ENG : String
deriving DecidableEq, Repr

/-- `tasks.is_valid_lang`: membership never raises, any non-string value is
simply not a member. -/
def is_valid_lang_value (st : Settings) (lang : Value) : Bool :=
  valueIn lang st.LANGUAGES

/-- `tasks.is_valid_msg_type`. -/
def is_valid_msg_type_value (st : Settings) (msg_type : Value) : Bool :=
  valueIn msg_type st.MSG_TYPES

/-- `tasks.is_valid_msg_receiver`. -/
def is_valid_msg_receiver_value (st : Settings) (msg_receiver : Value) : Bool :=
  valueIn msg_receiver st.RECEIVER_TYPES

/-- `tasks.is_valid_loss_reason`. -/
def is_valid_loss_reason_value (loss_reason : Value) : Bool :=
  valueIn loss_reason ["miscarriage", "stillborn", "baby_died"]

/-! ## Temporal calculator

`utils.calc_pregnancy_week_lmp` and `utils.calc_baby_age` live in
`hellomama_registration/utils.py`, which is not part of the sources given
here; they are modelled from the spec (section 4.2).
-/

/-- Modelled from the spec: `utils.calc_pregnancy_week_lmp(today, lmp)`
(missing `hellomama_registration/utils.py`) is
`floor((today - last_period_date).days / 7)`, with a result of exactly 1
promoted to 2. Callers guard the argument with `is_valid_date`, so the
unparsable case is unreachable. -/
def calc_pregnancy_week_lmp (today : Int) (lmp : Value) : Int :=
  match lmp with
  | .s u =>
      match strptimeYmd u with
      | some (y, m, d) =>
          let weeks := Int.fdiv (today - toOrdinal y m d) 7
          if weeks == 1 then 2 else weeks
      | none => 0
  | _ => 0

/-- Modelled from the spec: `utils.calc_baby_age(today, baby_dob)` (missing
`hellomama_registration/utils.py`) is `floor((today - birth_date).days / 7)`
when the day difference is non-negative, and the sentinel -1 when the birth
date is in the future. -/
def calc_baby_age (today : Int) (baby_dob : Value) : Int :=
  match baby_dob with
  | .s u =>
      match strptimeYmd u with
      | some (y, m, d) =>
          let days := today - toOrdinal y m d
          if 0 ≤ days then Int.fdiv days 7 else -1
      | none => 0
  | _ => 0

/-! ## Registration rows -/

/-- A `Registration` row: `source.authority` is inlined, since the engine
only reads that one field of the source. -/
structure Registration where
  id : Nat
  mother_id : String
  stage : String
  authority : String
  data : Data
  validated : Bool
deriving DecidableEq, Repr

/-- In-place update `registration.data[k] = v`. -/
def Registration.setData (r : Registration) (k : String) (v : Value) : Registration :=
  { r with data := r.data.set k v }

/-! ## `ValidateRegistration.check_field_values` -/

/-- The body of the `for field in fields` loop of
`ValidateRegistration.check_field_values` for one field: the failure
markers this field appends. The source tests the disjoint field groups with
successive independent `if` statements; a field name matches at most one
group, so the groups are rendered as a cascade. -/
def fieldCheck (st : Settings) (today : Int) (rd : Data) (field : String) :
    Except PyErr (List String) :=
  if field == "receiver_id" || field == "operator_id" then
    match rd.getItem field with
    | .error e => .error e
    | .ok v =>
        match is_valid_uuid_value v with
        | .error e => .error e
        | .ok b => .ok (if b then [] else [field])
  else if field == "language" then
    match rd.getItem field with
    | .error e => .error e
    | .ok v => .ok (if is_valid_lang_value st v then [] else [field])
  else if field == "msg_type" then
    match rd.getItem field with
    | .error e => .error e
    | .ok v => .ok (if is_valid_msg_type_value st v then [] else [field])
  else if field == "last_period_date" || field == "baby_dob" then
    match rd.getItem field with
    | .error e => .error e
    | .ok v =>
        if !is_valid_date_value v then
          .ok [field]
        else if field == "last_period_date" then
          let preg_weeks := calc_pregnancy_week_lmp today v
          if st.PREBIRTH_MIN_WEEKS ≤ preg_weeks && preg_weeks ≤ st.PREBIRTH_MAX_WEEKS then
            .ok []
          else
            .ok ["last_period_date out of range"]
        else
          let preg_weeks := calc_baby_age today v
          if st.POSTBIRTH_MIN_WEEKS ≤ preg_weeks && preg_weeks ≤ st.POSTBIRTH_MAX_WEEKS then
            .ok []
          else
            .ok ["baby_dob out of range"]
  else if field == "msg_receiver" then
    match rd.getItem field with
    | .error e => .error e
    | .ok v => .ok (if is_valid_msg_receiver_value st v then [] else [field])
  else if field == "loss_reason" then
    match rd.getItem field with
    | .error e => .error e
    | .ok v => .ok (if is_valid_loss_reason_value v then [] else [field])
  else
    .ok []

/-- The accumulating loop of `check_field_values`: `failures` is the list
built so far. -/
def checkLoop (st : Settings) (today : Int) (rd : Data) :
    List String → List String → Except PyErr (List String)
  | [], failures => .ok failures
  | field :: rest, failures =>
      match fieldCheck st today rd field with
      | .error e => .error e
      | .ok fs => checkLoop st today rd rest (failures ++ fs)

/-- `ValidateRegistration.check_field_values(fields, registration_data)`. -/
def check_field_values (st : Settings) (today : Int) (fields : List String)
    (registration_data : Data) : Except PyErr (List String) :=
  checkLoop st today registration_data fields []

/-! ## `ValidateRegistration.validate` -/

/-- `fields_general` of `validate`. -/
def fields_general : List String :=
  ["receiver_id", "operator_id", "language", "msg_type"]

/-- `hw_pre = list(set(fields_general) | set(fields_prebirth))`. Python's
set iteration order is unspecified; it is fixed here as general fields
first. Only membership questions about this list are ever used. -/
def hw_pre : List String := fields_general ++ ["last_period_date", "msg_receiver"]

/-- `hw_post`. -/
def hw_post : List String := fields_general ++ ["baby_dob", "msg_receiver"]

/-- `pbl_loss`. -/
def pbl_loss : List String := fields_general ++ ["loss_reason"]

/-- `set(fields).issubset(keys)`. -/
def subsetOf (fields keys : List String) : Bool :=
  fields.all (fun f => keys.contains f)

/-- The stage/authority rule matrix of `validate` (the part after the
mother-id and receiver-identity checks). -/
def validateStage (st : Settings) (today : Int) (r : Registration) :
    Except PyErr (Bool × Registration) :=
  if r.stage == "prebirth" && ["hw_limited", "hw_full"].contains r.authority
      && subsetOf hw_pre r.data.keys then
    match check_field_values st today hw_pre r.data with
    | .error e => .error e
    | .ok invalid_fields =>
        if invalid_fields == [] then
          let r1 := r.setData "reg_type" (.s "hw_pre")
          match r1.data.getItem "last_period_date" with
          | .error e => .error e
          | .ok lmp =>
              let r2 := r1.setData "preg_week" (.i (calc_pregnancy_week_lmp today lmp))
              .ok (true, { r2 with validated := true })
        else
          .ok (false, r.setData "invalid_fields" (.l invalid_fields))
  else if r.stage == "postbirth" && ["hw_limited", "hw_full"].contains r.authority
      && subsetOf hw_post r.data.keys then
    match check_field_values st today hw_post r.data with
    | .error e => .error e
    | .ok invalid_fields =>
        if invalid_fields == [] then
          let r1 := r.setData "reg_type" (.s "hw_post")
          match r1.data.getItem "baby_dob" with
          | .error e => .error e
          | .ok dob =>
              let r2 := r1.setData "baby_age" (.i (calc_baby_age today dob))
              .ok (true, { r2 with validated := true })
        else
          .ok (false, r.setData "invalid_fields" (.l invalid_fields))
  else if r.stage == "loss" && ["patient", "advisor"].contains r.authority
      && subsetOf pbl_loss r.data.keys then
    match check_field_values st today pbl_loss r.data with
    | .error e => .error e
    | .ok invalid_fields =>
        if invalid_fields == [] then
          let r1 := r.setData "reg_type" (.s "pbl_loss")
          .ok (true, { r1 with validated := true })
        else
          .ok (false, r.setData "invalid_fields" (.l invalid_fields))
  else
    .ok (false, r.setData "invalid_fields" (.s "Invalid combination of fields"))

/-- `ValidateRegistration.validate(registration)`: returns whether the
registration validates together with the saved row. The source mutates and
saves the row inside each branch; here every normally-returning branch
yields the row exactly as saved, and a raising branch (accessing
`data["receiver_id"]` when it is absent) saves nothing. -/
def validate (st : Settings) (today : Int) (r : Registration) :
    Except PyErr (Bool × Registration) :=
  if !is_valid_uuid r.mother_id then
    .ok (false, r.setData "invalid_fields" (.s "Invalid UUID mother_id"))
  else
    match r.data.get? "msg_receiver" with
    | some mr =>
        if valueIn mr ["father_only", "friend_only", "family_only"] then
          match r.data.getItem "receiver_id" with
          | .error e => .error e
          | .ok rid =>
              if valueEqStr rid r.mother_id then
                .ok (false, r.setData "invalid_fields" (.s "mother requires own id"))
              else
                validateStage st today r
        else if valueEqStr mr "mother_only" then
          match r.data.getItem "receiver_id" with
          | .error e => .error e
          | .ok rid =>
              if !valueEqStr rid r.mother_id then
                .ok (false,
                  r.setData "invalid_fields" (.s "mother_id should be the same as receiver_id"))
              else
                validateStage st today r
        else
          validateStage st today r
    | none => validateStage st today r

/-! ## Subscription requests, side effects, and the orchestrator -/

/-- A `SubscriptionRequest` row, with the fields the engine sets. The
`identity` and `lang` fields hold whatever value the `data` dict held. -/
structure SubscriptionRequest where
  identity : Value
  messageset : Int
  next_sequence_number : Int
  lang : Value
  schedule : Int
  metadata : List (String × String)
deriving DecidableEq, Repr

/-- A welcome message handed to `utils.post_message`. -/
structure OutboundMessage where
  to_addr : String
  content : String
deriving DecidableEq, Repr

/-- One observable side effect of the engine, in program order. -/
inductive Event where
  | sub (s : SubscriptionRequest)
  | msg (m : OutboundMessage)
deriving DecidableEq, Repr

/-- The persistent state: registration rows plus the ordered trace of
created subscription requests and dispatched messages. -/
structure DB where
  registrations : List Registration
  events : List Event
deriving DecidableEq, Repr

/-- `registration.save()`: replace the row with the same primary key. -/
def DB.save (db : DB) (r : Registration) : DB :=
  { db with
    registrations := db.registrations.map (fun x => if x.id == r.id then r else x) }

/-- The subscription requests in a trace, in creation order. -/
def subsOf (events : List Event) : List SubscriptionRequest :=
  events.filterMap (fun e => match e with | .sub s => some s | .msg _ => none)

/-- The dispatched messages in a trace, in dispatch order. -/
def msgsOf (events : List Event) : List OutboundMessage :=
  events.filterMap (fun e => match e with | .msg m => some m | .sub _ => none)

/-- The external collaborators consumed by the engine (spec section 6):
identity address resolution, the message-set namer, and the
schedule/sequence resolver of `hellomama_registration/utils.py`, which is
not among the given sources. They are opaque parameters; the claims hold
for every instantiation. -/
structure Env where
  today : Int
  get_identity_address : Value → String
  get_messageset_short_name :
    String → String → Value → Value → String → String → String
  get_messageset_schedule_sequence : String → Value → Int × Int × Int

/-- Modelled from the spec: `Registration.get_voice_days_and_times`
(missing `registrations/models.py`) returns the registration's stored raw
voice day and time codes (spec section 4.4), empty when unset. -/
def Registration.get_voice_days_and_times (r : Registration) : String × String :=
  (valueFormat ((r.data.get? "voice_days").getD (.s "")),
   valueFormat ((r.data.get? "voice_times").getD (.s "")))

/-- Modelled from the spec: `Registration.get_weeks_pregnant_or_age`
(missing `registrations/models.py`) returns the elapsed weeks relevant to
the recipient — the pregnancy week for prebirth, else the infant age
(spec sections 4.5 and 4.6). -/
def Registration.get_weeks_pregnant_or_age (r : Registration) : Except PyErr Value :=
  match r.data.get? "preg_week" with
  | some v => .ok v
  | none =>
      match r.data.get? "baby_age" with
      | some v => .ok v
      | none => .error (.keyError "preg_week")

/-- The audio asset reference attached for the mother,
`"%s/static/audio/registration/%s/welcome_mother.mp3" % (PUBLIC_HOST, language)`. -/
def motherAudioRef (st : Settings) (lang : Value) : String :=
  st.PUBLIC_HOST ++ "/static/audio/registration/" ++ valueFormat lang ++ "/welcome_mother.mp3"

/-- The audio asset reference attached for the household. -/
def householdAudioRef (st : Settings) (lang : Value) : String :=
  st.PUBLIC_HOST ++ "/static/audio/registration/" ++ valueFormat lang ++ "/welcome_household.mp3"

/-- The condition of the mother-welcome branch,
`'voice_days' in registration.data and registration.data["voice_days"] != ""`. -/
def voiceDaysSet (r : Registration) : Bool :=
  match r.data.get? "voice_days" with
  | some vd => !valueEqStr vd ""
  | none => false

/-- The mother's SubscriptionRequest as `create_subscriptionrequests`
builds it, given the values read from the registration. -/
def motherSubOf (env : Env) (r : Registration) (weeks msg_type lang : Value)
    (meta : List (String × String)) : SubscriptionRequest :=
  let short_name := env.get_messageset_short_name r.stage "mother" msg_type weeks
    r.get_voice_days_and_times.1 r.get_voice_days_and_times.2
  let mss := env.get_messageset_schedule_sequence short_name weeks
  { identity := .s r.mother_id
    messageset := mss.1
    next_sequence_number := mss.2.2
    lang := lang
    schedule := mss.2.1
    metadata := meta }

/-- The mother-welcome section of `create_subscriptionrequests` (source
lines 223-244): either the `prepend_next_delivery` metadata entry, or the
one-off welcome text message to the addressed party. -/
def welcomeStep (st : Settings) (env : Env) (r : Registration) (lang : Value) :
    Except PyErr (List (String × String) × List Event) :=
  if voiceDaysSet r then
    .ok ([("prepend_next_delivery", motherAudioRef st lang)], [])
  else
    match r.data.getItem "msg_receiver" with
    | .error e => .error e
    | .ok mr =>
        if valueIn mr ["father_only", "friend_only", "family_only"] then
          match r.data.getItem "receiver_id" with
          | .error e => .error e
          | .ok rv =>
              .ok ([], [.msg ⟨env.get_identity_address rv, st.MOTHER_WELCOME_TEXT_NG_ENG⟩])
        else
          .ok ([], [.msg ⟨env.get_identity_address (.s r.mother_id),
                          st.MOTHER_WELCOME_TEXT_NG_ENG⟩])

/-- The household SubscriptionRequest as `create_subscriptionrequests`
builds it: the short name always carries the fixed "fri"/"9_11" pair and
reads `data["preg_week"]` (`pw`), the sequence lookup uses the re-read
weeks (`w2`), and the metadata always carries the household welcome-audio
reference. -/
def householdSubOf (st : Settings) (env : Env) (r : Registration)
    (msg_type lang pw w2 rv : Value) : SubscriptionRequest :=
  let short_name := env.get_messageset_short_name r.stage "household" msg_type pw "fri" "9_11"
  let mss := env.get_messageset_schedule_sequence short_name w2
  { identity := rv
    messageset := mss.1
    next_sequence_number := mss.2.2
    lang := lang
    schedule := mss.2.1
    metadata := [("prepend_next_delivery", householdAudioRef st lang)] }

/-- The weeks the household section re-reads from the data dict (source
lines 249-252): `data["preg_week"]` when present, else `data["baby_age"]`. -/
def weeks2Of (r : Registration) : Except PyErr Value :=
  match r.data.get? "preg_week" with
  | some v => .ok v
  | none => r.data.getItem "baby_age"

/-- The household section of `create_subscriptionrequests` (source lines
248-276), continued: read `data["preg_week"]` unconditionally for the
short name, and create the second row. -/
def householdStep (st : Settings) (env : Env) (r : Registration)
    (msg_type lang : Value) (db1 : DB) : Except PyErr (String × DB) :=
  match weeks2Of r with
  | .error e => .error e
  | .ok w2 =>
  match r.data.getItem "preg_week" with
  | .error e => .error e
  | .ok pw =>
  match r.data.getItem "receiver_id" with
  | .error e => .error e
  | .ok rv =>
  .ok ("2 SubscriptionRequests created",
       { db1 with
         events := db1.events ++ [.sub (householdSubOf st env r msg_type lang pw w2 rv)] })

/-- `ValidateRegistration.create_subscriptionrequests(registration)`:
returns the status string and the state extended with the trace of
created rows and dispatched messages, or the exception the source raises. -/
def create_subscriptionrequests (st : Settings) (env : Env) (r : Registration)
    (db : DB) : Except PyErr (String × DB) :=
  match r.get_weeks_pregnant_or_age with
  | .error e => .error e
  | .ok weeks =>
  match r.data.getItem "msg_type" with
  | .error e => .error e
  | .ok msg_type =>
  match r.data.getItem "language" with
  | .error e => .error e
  | .ok lang =>
  match welcomeStep st env r lang with
  | .error e => .error e
  | .ok (mother_metadata, welcome_events) =>
  let mother_sub := motherSubOf env r weeks msg_type lang mother_metadata
  let db1 : DB := { db with events := db.events ++ welcome_events ++ [.sub mother_sub] }
  match r.data.getItem "msg_receiver" with
  | .error e => .error e
  | .ok mr2 =>
  if !valueEqStr mr2 "mother_only" then
    householdStep st env r msg_type lang db1
  else
    .ok ("1 SubscriptionRequest created", db1)

namespace ValidateRegistration

/-- `ValidateRegistration.run(registration_id)`: look the registration up,
validate it (persisting the mutated row), create the subscription requests
when it validates, and return the status string. -/
def run (st : Settings) (env : Env) (db : DB) (registration_id : Nat) :
    Except PyErr (String × DB) :=
  match db.registrations.find? (fun r => r.id == registration_id) with
  | none => .error .doesNotExist
  | some registration =>
      match validate st env.today registration with
      | .error e => .error e
      | .ok (reg_validates, r1) =>
          let db1 := db.save r1
          if reg_validates then
            match create_subscriptionrequests st env r1 db1 with
            | .error e => .error e
            | .ok (_, db2) => .ok ("Validation completed - " ++ "Success", db2)
          else
            .ok ("Validation completed - " ++ "Failure", db1)

end ValidateRegistration

/-! ## Spec-side predicates -/

/-- The receiver-identity cross-checks of `validate` fall through without
returning or raising: either `msg_receiver` is absent, or the applicable
receiver/mother identity constraint holds (with `receiver_id` present
whenever the source would index it). -/
def crossChecksPass (r : Registration) : Bool :=
  match r.data.get? "msg_receiver" with
  | none => true
  | some mr =>
      if valueIn mr ["father_only", "friend_only", "family_only"] then
        match r.data.get? "receiver_id" with
        | none => false
        | some rid => !valueEqStr rid r.mother_id
      else if valueEqStr mr "mother_only" then
        match r.data.get? "receiver_id" with
        | none => false
        | some rid => valueEqStr rid r.mother_id
      else true

/-- The stage/authority rule matrix of spec section 4.3: some rule's stage,
authority set and required-field set all match. -/
def ruleMatches (stage authority : String) (keys : List String) : Bool :=
  (stage == "prebirth" && ["hw_limited", "hw_full"].contains authority
    && subsetOf hw_pre keys)
  || (stage == "postbirth" && ["hw_limited", "hw_full"].contains authority
    && subsetOf hw_post keys)
  || (stage == "loss" && ["patient", "advisor"].contains authority
    && subsetOf pbl_loss keys)

/-- A two-digit month as `strptime` accepts it: `01`-`09` or `10`-`12`. -/
def twoDigitMonth (a b : Char) : Bool :=
  (a == '1' && '0' ≤ b && b ≤ '2') || (a == '0' && '1' ≤ b && b ≤ '9')

/-- A two-digit day as `strptime` accepts it: `30`/`31`, `10`-`29`, or
`01`-`09`. -/
def twoDigitDay (a b : Char) : Bool :=
  (a == '3' && '0' ≤ b && b ≤ '1')
  || (('1' ≤ a && a ≤ '2') && ('0' ≤ b && b ≤ '9'))
  || (a == '0' && '1' ≤ b && b ≤ '9')

/-- A single nonzero digit (`strptime`'s one-digit month or day). -/
def oneDigitNum (c : Char) : Bool :=
  '1' ≤ c && c ≤ '9'

/-- The numeric value of a two-digit field. -/
def charsVal2 (a b : Char) : Nat :=
  10 * digitVal a + digitVal b

/-- The declarative characterisation of the dates `is_valid_date` accepts:
four digits of year, then a one- or two-digit month and a one- or two-digit
day in `strptime`'s lenient digit patterns covering the rest of the string,
denoting a real calendar day with year at least 1. Stated as a second,
spec-level definition to be compared with the translated algorithm. -/
def lenientOk (s : String) : Bool :=
  match s.data with
  | [c1, c2, c3, c4, a, b, c, d] =>
      c1.isDigit && c2.isDigit && c3.isDigit && c4.isDigit
      && twoDigitMonth a b && twoDigitDay c d
      && dateOk (digitVal c1 * 1000 + digitVal c2 * 100 + digitVal c3 * 10 + digitVal c4)
           (charsVal2 a b) (charsVal2 c d)
  | [c1, c2, c3, c4, a, b, c] =>
      c1.isDigit && c2.isDigit && c3.isDigit && c4.isDigit
      && ((twoDigitMonth a b && oneDigitNum c
            && dateOk (digitVal c1 * 1000 + digitVal c2 * 100 + digitVal c3 * 10 + digitVal c4)
                 (charsVal2 a b) (digitVal c))
          || (oneDigitNum a && twoDigitDay b c
            && dateOk (digitVal c1 * 1000 + digitVal c2 * 100 + digitVal c3 * 10 + digitVal c4)
                 (digitVal a) (charsVal2 b c)))
  | [c1, c2, c3, c4, a, b] =>
      c1.isDigit && c2.isDigit && c3.isDigit && c4.isDigit
      && oneDigitNum a && oneDigitNum b
      && dateOk (digitVal c1 * 1000 + digitVal c2 * 100 + digitVal c3 * 10 + digitVal c4)
           (digitVal a) (digitVal b)
  | _ => false

/-! ## Concrete fixtures for witnesses (mirroring the repository's tests) -/

/-- Settings with the enumerations and week bounds the repository's test
suite exhibits. -/
def testSettings : Settings :=
  { LANGUAGES := ["eng_NG", "ibo_NG", "pcm_NG", "hau_NG"]
    MSG_TYPES := ["text", "audio"]
    RECEIVER_TYPES := ["mother_only", "father_only", "friend_only", "family_only",
                       "mother_father", "mother_family", "mother_friend"]
    PREBIRTH_MIN_WEEKS := 10, PREBIRTH_MAX_WEEKS := 42
    POSTBIRTH_MIN_WEEKS := 0, POSTBIRTH_MAX_WEEKS := 52
    PUBLIC_HOST := "http://registration.dev.example.org"
    MOTHER_WELCOME_TEXT_NG_ENG := "Welcome to HelloMama!" }

/-- The test suite's fixed clock, 2015-08-17. -/
def testToday : Int := toOrdinal 2015 8 17

/-- A concrete instantiation of the external collaborators. -/
def testEnv : Env :=
  { today := testToday
    get_identity_address := fun _ => "+2340000000"
    get_messageset_short_name := fun stage recipient _ _ vdays vtimes =>
      stage ++ "." ++ recipient ++ "." ++ vdays ++ "." ++ vtimes
    get_messageset_schedule_sequence := fun _ _ => (1, 101, 15) }

/-- The mother identity of the test fixtures. -/
def motherUuid : String := "mother00-9d89-4aa6-99ff-13c225365b5d"

/-- The friend identity of the test fixtures. -/
def friendUuid : String := "friend00-73a2-4d89-b045-d52004c025fe"

/-- The operator identity of the test fixtures. -/
def nurseUuid : String := "nurse000-6a07-4377-a4f6-c0485ccba234"

/-- The `hw_pre_friend` registration data of the test fixtures. -/
def hwPreFriendData : Data :=
  [("receiver_id", .s friendUuid), ("operator_id", .s nurseUuid),
   ("language", .s "eng_NG"), ("msg_type", .s "text"), ("gravida", .s "1"),
   ("last_period_date", .s "20150202"), ("msg_receiver", .s "friend_only")]

/-- A prebirth friend-receiver registration. -/
def regPreFriend : Registration :=
  { id := 1, mother_id := motherUuid, stage := "prebirth", authority := "hw_full",
    data := hwPreFriendData, validated := false }

/-- The `hw_pre_mother` registration data of the test fixtures. -/
def hwPreMotherData : Data :=
  [("receiver_id", .s motherUuid), ("operator_id", .s nurseUuid),
   ("language", .s "eng_NG"), ("msg_type", .s "text"), ("gravida", .s "1"),
   ("last_period_date", .s "20150202"), ("msg_receiver", .s "mother_only")]

/-- A prebirth mother-only registration. -/
def regPreMother : Registration :=
  { id := 3, mother_id := motherUuid, stage := "prebirth", authority := "hw_full",
    data := hwPreMotherData, validated := false }

/-- The `hw_post` registration data of the test fixtures. -/
def hwPostData : Data :=
  [("receiver_id", .s friendUuid), ("operator_id", .s nurseUuid),
   ("language", .s "eng_NG"), ("msg_type", .s "text"), ("gravida", .s "2"),
   ("baby_dob", .s "20150202"), ("msg_receiver", .s "friend_only")]

/-- A postbirth friend-receiver registration. -/
def regPost : Registration :=
  { id := 2, mother_id := motherUuid, stage := "postbirth", authority := "hw_full",
    data := hwPostData, validated := false }

/-- A registration whose `data` lacks `receiver_id` while naming a
single-recipient `msg_receiver`. -/
def regNoReceiverId : Registration :=
  { id := 5, mother_id := motherUuid, stage := "prebirth", authority := "hw_full",
    data := [("msg_receiver", .s "father_only")], validated := false }

/-- A registration whose `mother_id` is not a valid identifier. -/
def regBadMotherId : Registration :=
  { id := 6, mother_id := "badid", stage := "prebirth", authority := "hw_full",
    data := hwPreMotherData, validated := false }

/-- A registration with no matching stage/authority rule. -/
def regPublicStage : Registration :=
  { id := 7, mother_id := motherUuid, stage := "public", authority := "hw_full",
    data := hwPreMotherData, validated := false }

/-- Prebirth registration data whose `last_period_date` is an int rather
than a string. -/
def intLmpData : Data :=
  [("receiver_id", .s friendUuid), ("operator_id", .s nurseUuid),
   ("language", .s "eng_NG"), ("msg_type", .s "text"),
   ("last_period_date", .i 20150202), ("msg_receiver", .s "friend_only")]

/-- A registration carrying `intLmpData`. -/
def regIntLmp : Registration :=
  { id := 8, mother_id := motherUuid, stage := "prebirth", authority := "hw_full",
    data := intLmpData, validated := false }

/-- A prebirth friend-receiver registration whose `receiver_id` equals the
mother's id. -/
def regFriendIsMother : Registration :=
  { id := 9, mother_id := motherUuid, stage := "prebirth", authority := "hw_full",
    data := (hwPreFriendData.set "receiver_id" (.s motherUuid)), validated := false }

/-- A prebirth mother-only registration whose `receiver_id` differs from the
mother's id. -/
def regMotherDiffers : Registration :=
  { id := 10, mother_id := motherUuid, stage := "prebirth", authority := "hw_full",
    data := (hwPreMotherData.set "receiver_id" (.s friendUuid)), validated := false }

/-- The empty state. -/
def dbEmpty : DB := { registrations := [], events := [] }

/-- A validated prebirth friend-receiver registration carrying its
computed `preg_week`. -/
def regValidatedFriend : Registration :=
  { id := 11, mother_id := motherUuid, stage := "prebirth", authority := "hw_full",
    data := hwPreFriendData.set "preg_week" (.i 15), validated := true }

/-- A validated prebirth mother-only voice registration. -/
def regVoiceMother : Registration :=
  { id := 12, mother_id := motherUuid, stage := "prebirth", authority := "hw_full",
    data := (((hwPreMotherData.set "msg_type" (.s "audio")).set "voice_days"
      (.s "tue_thu")).set "voice_times" (.s "9_11")).set "preg_week" (.i 15),
    validated := true }

/-- The postbirth registration exactly as `validate` saves it on success. -/
def regPostValidated : Registration :=
  { (regPost.setData "reg_type" (.s "hw_post")).setData "baby_age" (.i 28) with
    validated := true }

/-- The `pbl_loss` registration data of the test fixtures. -/
def pblLossData : Data :=
  [("receiver_id", .s friendUuid), ("operator_id", .s nurseUuid),
   ("language", .s "eng_NG"), ("msg_type", .s "text"), ("gravida", .s "2"),
   ("loss_reason", .s "miscarriage")]

/-- The loss registration exactly as `validate` saves it on success: only
`reg_type` is added, so the data holds neither `preg_week` nor `baby_age`,
and neither `voice_days` nor `msg_receiver`. -/
def regLossValidated : Registration :=
  { id := 13, mother_id := motherUuid, stage := "loss", authority := "patient",
    data := pblLossData.set "reg_type" (.s "pbl_loss"), validated := true }

/-- Prebirth registration data whose `receiver_id` is an int rather than a
string. -/
def intRidData : Data :=
  [("receiver_id", .i 12345), ("operator_id", .s nurseUuid),
   ("language", .s "eng_NG"), ("msg_type", .s "text"),
   ("last_period_date", .s "20150202"), ("msg_receiver", .s "friend_only")]

/-- A registration carrying `intRidData`. -/
def regIntRid : Registration :=
  { id := 14, mother_id := motherUuid, stage := "prebirth", authority := "hw_full",
    data := intRidData, validated := false }

/-- The payload of a normally-returning run, for stating witnesses. -/
def outOf (x : Except PyErr (String × DB)) : String × DB :=
  match x with
  | .ok p => p
  | .error _ => ("", dbEmpty)

/-- The concrete output used by the C4 witness. -/
def c4pair : String × DB :=
  outOf (create_subscriptionrequests testSettings testEnv regValidatedFriend dbEmpty)

/-- The concrete output used by the C5 witness. -/
def c5pair : String × DB :=
  outOf (create_subscriptionrequests testSettings testEnv regVoiceMother dbEmpty)

/-- `regPreMother` exactly as `validate` saves it on success. -/
def regPreMotherValidated : Registration :=
  { (regPreMother.setData "reg_type" (.s "hw_pre")).setData "preg_week" (.i 28) with
    validated := true }

/-- The state after the first run on `regPreMother`. -/
def c9run1 : String × DB :=
  outOf (ValidateRegistration.run testSettings testEnv
    { registrations := [regPreMother], events := [] } 3)

/-- The state after re-running on the already-validated registration. -/
def c9run2 : String × DB :=
  outOf (ValidateRegistration.run testSettings testEnv c9run1.2 3)

/-- Prebirth data whose `last_period_date` is well-formed but far out of
range. -/
def badLmpData : Data := hwPreFriendData.set "last_period_date" (.s "20140202")

/-- The per-field results of `check_field_values`, each field checked
independently in order: the spec-level view that the loop collects every
field's failures. -/
def fieldChecksAll (st : Settings) (today : Int) (rd : Data) :
    List String → Except PyErr (List (List String))
  | [] => .ok []
  | f :: rest =>
      match fieldCheck st today rd f with
      | .error e => .error e
      | .ok fs =>
          match fieldChecksAll st today rd rest with
          | .error e => .error e
          | .ok out => .ok (fs :: out)

/-! ## Helper lemmas -/

theorem Data.get?_set (d : Data) (k k' : String) (v : Value) :
    (d.set k v).get? k' = if k' = k then some v else d.get? k' := by
  induction d with
  | nil =>
      by_cases h : k' = k
      · simp [Data.set, Data.get?, h]
      · have h2 : ¬(k = k') := fun hh => h hh.symm
        simp [Data.set, Data.get?, h, h2]
  | cons p rest ih =>
      by_cases hpk : p.1 = k
      · by_cases h : k' = k
        · simp [Data.set, Data.get?, hpk, h]
        · have h2 : ¬(k = k') := fun hh => h hh.symm
          have h3 : ¬(p.1 = k') := fun hh => h2 (hpk ▸ hh)
          simp [Data.set, Data.get?, hpk, h, h2, h3]
      · by_cases hp : p.1 = k'
        · have h : ¬(k' = k) := fun hh => hpk (hp.trans hh)
          simp [Data.set, Data.get?, hpk, hp, h]
        · simp [Data.set, Data.get?, hpk, hp, ih]

theorem Registration.get?_setData (r : Registration) (k k' : String) (v : Value) :
    (r.setData k v).data.get? k' = if k' = k then some v else r.data.get? k' := by
  simp [Registration.setData, Data.get?_set]

theorem Registration.validated_setData (r : Registration) (k : String) (v : Value) :
    (r.setData k v).validated = r.validated := rfl

theorem DB.events_save (db : DB) (r : Registration) : (db.save r).events = db.events := rfl

/-- Claim C1: for every registration id, the entry point
`ValidateRegistration.run` returns exactly one of the two strings
"Validation completed - Success" or "Validation completed - Failure"; when
validation fails (`validate` answers false) the run returns the Failure
string and creates no SubscriptionRequest and dispatches no welcome
message (the event trace is unchanged); when validation succeeds it
returns the Success string. -/
theorem C1_run_status (st : Settings) (env : Env) (db : DB) (registration_id : Nat)
    (res : String) (db2 : DB)
    (h : ValidateRegistration.run st env db registration_id = .ok (res, db2)) :
    (res = "Validation completed - Success" ∨ res = "Validation completed - Failure")
    ∧ (res = "Validation completed - Failure" → db2.events = db.events)
    ∧ (∀ r r1, db.registrations.find? (fun x => x.id == registration_id) = some r →
        validate st env.today r = .ok (true, r1) →
        res = "Validation completed - Success")
    ∧ (∀ r r1, db.registrations.find? (fun x => x.id == registration_id) = some r →
        validate st env.today r = .ok (false, r1) →
        res = "Validation completed - Failure" ∧ db2.events = db.events) := by
  unfold ValidateRegistration.run at h
  split at h
  · exact (Except.noConfusion h)
  next r hfind =>
    split at h
    · exact (Except.noConfusion h)
    next reg_validates r1 hval =>
      cases reg_validates with
      | true =>
        rw [if_pos rfl] at h
        split at h
        · exact (Except.noConfusion h)
        next s db' hcreate =>
          have hres : res = "Validation completed - " ++ "Success" :=
            ((Prod.mk.injEq _ _ _ _ ▸ (Except.ok.injEq _ _ ▸ h)).1).symm
          have hres2 : res = "Validation completed - Success" := hres
          refine ⟨Or.inl hres2, ?_, ?_, ?_⟩
          · intro hf
            rw [hres2] at hf
            exact absurd hf (by decide)
          · intro _ _ _ _
            exact hres2
          · intro r' r1' hfind' hval'
            rw [hfind'] at hfind
            have hrr : r' = r := by
              have := hfind
              simp only [Option.some.injEq] at this
              exact this
            rw [hrr] at hval'
            rw [hval'] at hval
            have hbool := ((Prod.mk.injEq _ _ _ _ ▸ (Except.ok.injEq _ _ ▸ hval)).1)
            exact absurd hbool (by decide)
      | false =>
        rw [if_neg (by decide)] at h
        have hres : res = "Validation completed - " ++ "Failure" :=
          ((Prod.mk.injEq _ _ _ _ ▸ (Except.ok.injEq _ _ ▸ h)).1).symm
        have hdb : db2 = db.save r1 :=
          ((Prod.mk.injEq _ _ _ _ ▸ (Except.ok.injEq _ _ ▸ h)).2).symm
        have hres2 : res = "Validation completed - Failure" := hres
        refine ⟨Or.inr hres2, ?_, ?_, ?_⟩
        · intro _
          rw [hdb]
          exact DB.events_save db r1
        · intro r' r1' hfind' hval'
          rw [hfind'] at hfind
          have hrr : r' = r := by
            have := hfind
            simp only [Option.some.injEq] at this
            exact this
          rw [hrr] at hval'
          rw [hval'] at hval
          have hbool := ((Prod.mk.injEq _ _ _ _ ▸ (Except.ok.injEq _ _ ▸ hval)).1)
          exact absurd hbool (by decide)
        · intro _ _ _ _
          refine ⟨hres2, ?_⟩
          rw [hdb]
          exact DB.events_save db r1

/-- Witness for C1 at a concrete failing registration: the run answers the
Failure string, and the failing-validation clause yields the Failure
string with an unchanged event trace. -/
theorem C1_run_status_witness :
    (("Validation completed - Failure" : String) = "Validation completed - Success"
      ∨ ("Validation completed - Failure" : String) = "Validation completed - Failure")
    ∧ (("Validation completed - Failure" : String) = "Validation completed - Failure"
      ∧ (DB.mk [regBadMotherId.setData "invalid_fields" (.s "Invalid UUID mother_id")]
          []).events = (DB.mk [regBadMotherId] []).events) :=
  ⟨(C1_run_status testSettings testEnv ⟨[regBadMotherId], []⟩ 6
      "Validation completed - Failure"
      ⟨[regBadMotherId.setData "invalid_fields" (.s "Invalid UUID mother_id")], []⟩
      (by rfl)).1,
   (C1_run_status testSettings testEnv ⟨[regBadMotherId], []⟩ 6
      "Validation completed - Failure"
      ⟨[regBadMotherId.setData "invalid_fields" (.s "Invalid UUID mother_id")], []⟩
      (by rfl)).2.2.2 regBadMotherId
      (regBadMotherId.setData "invalid_fields" (.s "Invalid UUID mother_id"))
      (by rfl) (by rfl)⟩

theorem valueEqStr_true {v : Value} {t : String} (h : valueEqStr v t = true) : v = .s t := by
  cases v with
  | s u =>
      simp only [valueEqStr, beq_iff_eq] at h
      rw [h]
  | i n => exact absurd h (by simp [valueEqStr])
  | l xs => exact absurd h (by simp [valueEqStr])

/-- Claim C6: with a valid mother id and `msg_receiver` present, a
single-recipient receiver equal to the mother fails with
"mother requires own id", and a mother-only receiver different from the
mother fails with "mother_id should be the same as receiver_id"; in both
cases `validate` returns false and `validated` stays false. -/
theorem C6_receiver_identity_checks (st : Settings) (today : Int) (r : Registration)
    (mr rid : Value)
    (h1 : is_valid_uuid r.mother_id = true)
    (hmr : r.data.get? "msg_receiver" = some mr)
    (hrid : r.data.get? "receiver_id" = some rid)
    (hval : r.validated = false) :
    (valueIn mr ["father_only", "friend_only", "family_only"] = true →
      valueEqStr rid r.mother_id = true →
      validate st today r =
          .ok (false, r.setData "invalid_fields" (.s "mother requires own id"))
        ∧ (r.setData "invalid_fields" (.s "mother requires own id")).data.get?
            "invalid_fields" = some (.s "mother requires own id")
        ∧ (r.setData "invalid_fields" (.s "mother requires own id")).validated = false)
    ∧ (valueEqStr mr "mother_only" = true →
      valueEqStr rid r.mother_id = false →
      validate st today r =
          .ok (false,
            r.setData "invalid_fields" (.s "mother_id should be the same as receiver_id"))
        ∧ (r.setData "invalid_fields"
            (.s "mother_id should be the same as receiver_id")).data.get?
            "invalid_fields" = some (.s "mother_id should be the same as receiver_id")
        ∧ (r.setData "invalid_fields"
            (.s "mother_id should be the same as receiver_id")).validated = false) := by
  constructor
  · intro hin heq
    refine ⟨?_, ?_, ?_⟩
    · unfold validate
      rw [h1]
      simp only [Bool.not_true, Bool.false_eq_true, if_false, hmr, Data.getItem, hrid, hin,
        if_true, heq]
    · rw [Registration.get?_setData, if_pos rfl]
    · rw [Registration.validated_setData]
      exact hval
  · intro hmo heq
    have hmrv : mr = .s "mother_only" := valueEqStr_true hmo
    have hnotin : valueIn mr ["father_only", "friend_only", "family_only"] = false := by
      rw [hmrv]
      decide
    refine ⟨?_, ?_, ?_⟩
    · unfold validate
      rw [h1]
      simp only [Bool.not_true, Bool.false_eq_true, if_false, hmr, Data.getItem, hrid,
        hnotin, hmo, if_true, heq, Bool.not_false]
    · rw [Registration.get?_setData, if_pos rfl]
    · rw [Registration.validated_setData]
      exact hval

/-- Witness for C6 on concrete registrations exercising both checks. -/
theorem C6_receiver_identity_checks_witness :
    (validate testSettings testToday regFriendIsMother =
        .ok (false, regFriendIsMother.setData "invalid_fields" (.s "mother requires own id")))
    ∧ (validate testSettings testToday regMotherDiffers =
        .ok (false, regMotherDiffers.setData "invalid_fields"
          (.s "mother_id should be the same as receiver_id"))) :=
  ⟨((C6_receiver_identity_checks testSettings testToday regFriendIsMother
      (.s "friend_only") (.s motherUuid) (by decide) (by rfl) (by rfl) (by rfl)).1
      (by decide) (by decide)).1,
   ((C6_receiver_identity_checks testSettings testToday regMotherDiffers
      (.s "mother_only") (.s friendUuid) (by decide) (by rfl) (by rfl) (by rfl)).2
      (by decide) (by decide)).1⟩

theorem validate_eq_stage (st : Settings) (today : Int) (r : Registration)
    (h1 : is_valid_uuid r.mother_id = true)
    (h2 : crossChecksPass r = true) :
    validate st today r = validateStage st today r := by
  unfold validate
  rw [h1]
  simp only [Bool.not_true, Bool.false_eq_true, if_false]
  unfold crossChecksPass at h2
  cases hmr : r.data.get? "msg_receiver" with
  | none => rfl
  | some mr =>
      rw [hmr] at h2
      by_cases hin : valueIn mr ["father_only", "friend_only", "family_only"] = true
      · simp only [hin, if_true] at h2 ⊢
        cases hrid : r.data.get? "receiver_id" with
        | none =>
            rw [hrid] at h2
            have h2f : (false : Bool) = true := h2
            exact absurd h2f (by decide)
        | some rid =>
            rw [hrid] at h2
            have h2v : (!valueEqStr rid r.mother_id) = true := h2
            have h2v2 : valueEqStr rid r.mother_id = false := by
              cases hx : valueEqStr rid r.mother_id
              · rfl
              · rw [hx] at h2v
                exact absurd h2v (by decide)
            simp only [Data.getItem, hrid, h2v2, Bool.false_eq_true, if_false]
      · have hin2 : valueIn mr ["father_only", "friend_only", "family_only"] = false := by
          cases hx : valueIn mr ["father_only", "friend_only", "family_only"]
          · rfl
          · exact absurd hx hin
        simp only [hin2, Bool.false_eq_true, if_false] at h2 ⊢
        by_cases hmo : valueEqStr mr "mother_only" = true
        · simp only [hmo, if_true] at h2 ⊢
          cases hrid : r.data.get? "receiver_id" with
          | none =>
              rw [hrid] at h2
              have h2f : (false : Bool) = true := h2
              exact absurd h2f (by decide)
          | some rid =>
              rw [hrid] at h2
              have h2v : valueEqStr rid r.mother_id = true := h2
              simp only [Data.getItem, hrid, h2v, Bool.not_true, Bool.false_eq_true, if_false]
        · have hmo2 : valueEqStr mr "mother_only" = false := by
            cases hx : valueEqStr mr "mother_only"
            · rfl
            · exact absurd hx hmo
          simp only [hmo2, Bool.false_eq_true, if_false]

/-- Claim C2: with a valid mother id and passing receiver-identity
cross-checks, a registration whose (stage, authority, present keys)
matches none of the three rules gets
`data.invalid_fields = "Invalid combination of fields"`, keeps
`validated = false`, and `validate` returns false; and rule matching is
monotone in the key set, so extra or unknown keys never turn a match into
a non-match. -/
theorem C2_invalid_combination (st : Settings) (today : Int) (r : Registration)
    (h0 : r.validated = false)
    (h1 : is_valid_uuid r.mother_id = true)
    (h2 : crossChecksPass r = true)
    (h3 : ruleMatches r.stage r.authority r.data.keys = false) :
    (validate st today r =
        .ok (false, r.setData "invalid_fields" (.s "Invalid combination of fields"))
      ∧ (r.setData "invalid_fields" (.s "Invalid combination of fields")).data.get?
          "invalid_fields" = some (.s "Invalid combination of fields")
      ∧ (r.setData "invalid_fields" (.s "Invalid combination of fields")).validated = false)
    ∧ (∀ stage auth keys keys', ruleMatches stage auth keys = true →
        (∀ k, keys.contains k = true → keys'.contains k = true) →
        ruleMatches stage auth keys' = true) := by
  constructor
  · unfold ruleMatches at h3
    simp only [Bool.or_eq_false_iff] at h3
    refine ⟨?_, ?_, ?_⟩
    · rw [validate_eq_stage st today r h1 h2]
      unfold validateStage
      rw [h3.1.1, h3.1.2, h3.2]
      simp only [Bool.false_eq_true, if_false]
    · rw [Registration.get?_setData, if_pos rfl]
    · rw [Registration.validated_setData]
      exact h0
  · intro stage auth keys keys' hrm hsub
    have mono : ∀ fields : List String,
        subsetOf fields keys = true → subsetOf fields keys' = true := by
      intro fields hf
      unfold subsetOf at hf ⊢
      rw [List.all_eq_true] at hf ⊢
      intro x hx
      exact hsub x (hf x hx)
    unfold ruleMatches at hrm ⊢
    rw [Bool.or_eq_true, Bool.or_eq_true] at hrm
    rw [Bool.or_eq_true, Bool.or_eq_true]
    rcases hrm with (hA | hB) | hC
    · rw [Bool.and_eq_true, Bool.and_eq_true] at hA
      exact Or.inl (Or.inl (by
        rw [Bool.and_eq_true, Bool.and_eq_true]
        exact ⟨hA.1, mono _ hA.2⟩))
    · rw [Bool.and_eq_true, Bool.and_eq_true] at hB
      exact Or.inl (Or.inr (by
        rw [Bool.and_eq_true, Bool.and_eq_true]
        exact ⟨hB.1, mono _ hB.2⟩))
    · rw [Bool.and_eq_true, Bool.and_eq_true] at hC
      exact Or.inr (by
        rw [Bool.and_eq_true, Bool.and_eq_true]
        exact ⟨hC.1, mono _ hC.2⟩)

/-- Witness for C2: a concrete unmatched stage, and a concrete match kept
under an extra key. -/
theorem C2_invalid_combination_witness :
    validate testSettings testToday regPublicStage =
      .ok (false, regPublicStage.setData "invalid_fields" (.s "Invalid combination of fields"))
    ∧ ruleMatches "prebirth" "hw_full" (hw_pre ++ ["extra_key"]) = true :=
  ⟨(C2_invalid_combination testSettings testToday regPublicStage
      (by rfl) (by decide) (by decide) (by decide)).1.1,
   (C2_invalid_combination testSettings testToday regPublicStage
      (by rfl) (by decide) (by decide) (by decide)).2
     "prebirth" "hw_full" hw_pre (hw_pre ++ ["extra_key"]) (by decide)
     (by
       intro k hk
       rw [List.contains] at hk ⊢
       rw [List.elem_iff] at hk ⊢
       exact List.mem_append.mpr (Or.inl hk))⟩


theorem Data.getItem_eq_some {d : Data} {k : String} {v : Value}
    (h : d.get? k = some v) : d.getItem k = .ok v := by
  unfold Data.getItem
  rw [h]

theorem Data.getItem_eq_none {d : Data} {k : String}
    (h : d.get? k = none) : d.getItem k = .error (.keyError k) := by
  unfold Data.getItem
  rw [h]

theorem Data.getItem_ok {d : Data} {k : String} {v : Value}
    (h : d.getItem k = .ok v) : d.get? k = some v := by
  unfold Data.getItem at h
  cases hx : d.get? k with
  | none => rw [hx] at h; exact Except.noConfusion h
  | some w =>
      rw [hx] at h
      simp only [Except.ok.injEq] at h
      rw [h]

theorem welcomeStep_spec (st : Settings) (env : Env) (r : Registration) (lang : Value)
    (mm : List (String × String)) (we : List Event)
    (h : welcomeStep st env r lang = .ok (mm, we)) :
    (voiceDaysSet r = true →
      mm = [("prepend_next_delivery", motherAudioRef st lang)] ∧ we = [])
    ∧ (voiceDaysSet r = false →
      mm = [] ∧ ∃ mr, r.data.get? "msg_receiver" = some mr
        ∧ ∃ p : OutboundMessage, we = [Event.msg p]
          ∧ p.content = st.MOTHER_WELCOME_TEXT_NG_ENG
          ∧ (valueIn mr ["father_only", "friend_only", "family_only"] = true →
              ∃ rv, r.data.get? "receiver_id" = some rv
                ∧ p.to_addr = env.get_identity_address rv)
          ∧ (valueIn mr ["father_only", "friend_only", "family_only"] = false →
              p.to_addr = env.get_identity_address (.s r.mother_id))) := by
  unfold welcomeStep at h
  constructor
  · intro hv
    rw [hv, if_pos rfl] at h
    simp only [Except.ok.injEq, Prod.mk.injEq] at h
    exact ⟨h.1.symm, h.2.symm⟩
  · intro hv
    rw [hv] at h
    simp only [Bool.false_eq_true, if_false] at h
    split at h
    · exact Except.noConfusion h
    next mr hmri =>
      have hmr : r.data.get? "msg_receiver" = some mr := Data.getItem_ok hmri
      by_cases hin : valueIn mr ["father_only", "friend_only", "family_only"] = true
      · rw [hin, if_pos rfl] at h
        split at h
        · exact Except.noConfusion h
        next rv hrvi =>
          have hrv : r.data.get? "receiver_id" = some rv := Data.getItem_ok hrvi
          simp only [Except.ok.injEq, Prod.mk.injEq] at h
          refine ⟨h.1.symm, mr, hmr,
            ⟨env.get_identity_address rv, st.MOTHER_WELCOME_TEXT_NG_ENG⟩,
            h.2.symm, rfl, ?_, ?_⟩
          · intro _
            exact ⟨rv, hrv, rfl⟩
          · intro hcontra
            rw [hcontra] at hin
            exact Bool.noConfusion hin
      · have hin2 : valueIn mr ["father_only", "friend_only", "family_only"] = false := by
          cases hx : valueIn mr ["father_only", "friend_only", "family_only"]
          · rfl
          · exact absurd hx hin
        rw [hin2] at h
        simp only [Bool.false_eq_true, if_false] at h
        simp only [Except.ok.injEq, Prod.mk.injEq] at h
        refine ⟨h.1.symm, mr, hmr,
          ⟨env.get_identity_address (.s r.mother_id), st.MOTHER_WELCOME_TEXT_NG_ENG⟩,
          h.2.symm, rfl, ?_, ?_⟩
        · intro hcontra
          rw [hcontra] at hin2
          exact Bool.noConfusion hin2
        · intro _
          exact rfl

theorem householdStep_spec (st : Settings) (env : Env) (r : Registration)
    (msg_type lang : Value) (db1 : DB) (s2 : String) (db2 : DB)
    (h : householdStep st env r msg_type lang db1 = .ok (s2, db2)) :
    s2 = "2 SubscriptionRequests created"
    ∧ ∃ pw rv, r.data.get? "preg_week" = some pw
      ∧ r.data.get? "receiver_id" = some rv
      ∧ db2.registrations = db1.registrations
      ∧ db2.events = db1.events
          ++ [Event.sub (householdSubOf st env r msg_type lang pw pw rv)] := by
  unfold householdStep at h
  split at h
  · exact Except.noConfusion h
  next w2 hw2 =>
  split at h
  · exact Except.noConfusion h
  next pw hpwi =>
  split at h
  · exact Except.noConfusion h
  next rv hrvi =>
  have hpw : r.data.get? "preg_week" = some pw := Data.getItem_ok hpwi
  have hrv : r.data.get? "receiver_id" = some rv := Data.getItem_ok hrvi
  have hw2pw : w2 = pw := by
    unfold weeks2Of at hw2
    rw [hpw] at hw2
    simp only [Except.ok.injEq] at hw2
    exact hw2.symm
  rw [hw2pw] at h
  simp only [Except.ok.injEq, Prod.mk.injEq] at h
  refine ⟨h.1.symm, pw, rv, hpw, hrv, ?_, ?_⟩
  · rw [← h.2]
  · rw [← h.2]

theorem householdStep_keyError (st : Settings) (env : Env) (r : Registration)
    (msg_type lang : Value) (db1 : DB) (ba : Value)
    (hpw : r.data.get? "preg_week" = none)
    (hba : r.data.get? "baby_age" = some ba) :
    householdStep st env r msg_type lang db1 = .error (.keyError "preg_week") := by
  unfold householdStep weeks2Of
  rw [hpw, Data.getItem_eq_some hba, Data.getItem_eq_none hpw]

theorem create_spec (st : Settings) (env : Env) (r : Registration) (db : DB)
    (res : String) (db' : DB)
    (h : create_subscriptionrequests st env r db = .ok (res, db')) :
    ∃ (weeks msg_type lang mr : Value) (mother_metadata : List (String × String))
      (welcome_events : List Event),
      r.get_weeks_pregnant_or_age = .ok weeks
      ∧ r.data.get? "msg_type" = some msg_type
      ∧ r.data.get? "language" = some lang
      ∧ r.data.get? "msg_receiver" = some mr
      ∧ welcomeStep st env r lang = .ok (mother_metadata, welcome_events)
      ∧ db'.registrations = db.registrations
      ∧ (valueEqStr mr "mother_only" = true →
          res = "1 SubscriptionRequest created"
          ∧ db'.events = db.events ++ welcome_events
              ++ [Event.sub (motherSubOf env r weeks msg_type lang mother_metadata)])
      ∧ (valueEqStr mr "mother_only" = false →
          res = "2 SubscriptionRequests created"
          ∧ ∃ pw rv, r.data.get? "preg_week" = some pw
            ∧ r.data.get? "receiver_id" = some rv
            ∧ weeks = pw
            ∧ db'.events = db.events ++ welcome_events
                ++ [Event.sub (motherSubOf env r weeks msg_type lang mother_metadata),
                    Event.sub (householdSubOf st env r msg_type lang pw pw rv)]) := by
  unfold create_subscriptionrequests at h
  split at h
  · exact Except.noConfusion h
  next weeks hweeks =>
  split at h
  · exact Except.noConfusion h
  next msg_type hmti =>
  split at h
  · exact Except.noConfusion h
  next lang hlangi =>
  split at h
  · exact Except.noConfusion h
  next mother_metadata welcome_events hwelcome =>
  split at h
  · exact Except.noConfusion h
  next mr hmri =>
  have hmt : r.data.get? "msg_type" = some msg_type := Data.getItem_ok hmti
  have hlang : r.data.get? "language" = some lang := Data.getItem_ok hlangi
  have hmr : r.data.get? "msg_receiver" = some mr := Data.getItem_ok hmri
  refine ⟨weeks, msg_type, lang, mr, mother_metadata, welcome_events,
    hweeks, hmt, hlang, hmr, hwelcome, ?_, ?_, ?_⟩
  · -- registrations unchanged in both branches
    by_cases hmo : valueEqStr mr "mother_only" = true
    · rw [hmo] at h
      simp only [Bool.not_true, Bool.false_eq_true, if_false] at h
      simp only [Except.ok.injEq, Prod.mk.injEq] at h
      rw [← h.2]
    · have hmo2 : valueEqStr mr "mother_only" = false := by
        cases hx : valueEqStr mr "mother_only"
        · rfl
        · exact absurd hx hmo
      rw [hmo2] at h
      simp only [Bool.not_false, if_true] at h
      have hs := householdStep_spec st env r msg_type lang _ res db' h
      obtain ⟨_, pw, rv, _, _, hregs, _⟩ := hs
      rw [hregs]
  · intro hmo
    rw [hmo] at h
    simp only [Bool.not_true, Bool.false_eq_true, if_false] at h
    simp only [Except.ok.injEq, Prod.mk.injEq] at h
    refine ⟨h.1.symm, ?_⟩
    rw [← h.2]
  · intro hmo
    rw [hmo] at h
    simp only [Bool.not_false, if_true] at h
    have hs := householdStep_spec st env r msg_type lang _ res db' h
    obtain ⟨hres, pw, rv, hpw, hrv, _, hevents⟩ := hs
    have hwpw : weeks = pw := by
      unfold Registration.get_weeks_pregnant_or_age at hweeks
      rw [hpw] at hweeks
      simp only [Except.ok.injEq] at hweeks
      exact hweeks.symm
    refine ⟨hres, pw, rv, hpw, hrv, hwpw, ?_⟩
    rw [hevents]
    simp [List.append_assoc]

theorem subsOf_append (a b : List Event) : subsOf (a ++ b) = subsOf a ++ subsOf b :=
  List.filterMap_append a b _

theorem msgsOf_append (a b : List Event) : msgsOf (a ++ b) = msgsOf a ++ msgsOf b :=
  List.filterMap_append a b _

theorem welcomeStep_events (st : Settings) (env : Env) (r : Registration) (lang : Value)
    (mm : List (String × String)) (we : List Event)
    (h : welcomeStep st env r lang = .ok (mm, we)) :
    subsOf we = [] ∧ (msgsOf we).length ≤ 1 := by
  have hs := welcomeStep_spec st env r lang mm we h
  by_cases hv : voiceDaysSet r = true
  · obtain ⟨_, hwe⟩ := hs.1 hv
    rw [hwe]
    exact ⟨rfl, by simp [msgsOf]⟩
  · have hv2 : voiceDaysSet r = false := by
      cases hx : voiceDaysSet r
      · rfl
      · exact absurd hx hv
    obtain ⟨_, mr, _, p, hwe, _⟩ := hs.2 hv2
    rw [hwe]
    exact ⟨rfl, by simp [msgsOf]⟩

/-- Counterexample for C4: a validated postbirth friend-receiver
registration has `msg_receiver ≠ "mother_only"`, yet
`create_subscriptionrequests` raises `KeyError("preg_week")` at the
unconditional `data["preg_week"]` read of the household branch, so no
second SubscriptionRequest is created and no count string is returned —
the claim's "for every validated registration" is too broad. -/
theorem C4_counterexample :
    regPostValidated.validated = true
    ∧ regPostValidated.data.getItem "msg_receiver" = .ok (.s "friend_only")
    ∧ create_subscriptionrequests testSettings testEnv regPostValidated dbEmpty
        = .error (.keyError "preg_week") :=
  ⟨rfl, rfl, rfl⟩

/-- Claim C4 (amended): for a normally-completing
`create_subscriptionrequests`, a second SubscriptionRequest is created
exactly when `data.msg_receiver ≠ "mother_only"`; it is for the identity
`data.receiver_id`, its metadata always carries the household
welcome-audio `prepend_next_delivery` reference (and the household branch
dispatches no message), and the return string counts the rows. Normal
completion is a real restriction: per the counterexample, a validated
postbirth household registration raises instead. -/
theorem C4_household_subscription (st : Settings) (env : Env) (r : Registration)
    (db : DB) (res : String) (db' : DB)
    (h : create_subscriptionrequests st env r db = .ok (res, db')) :
    ∃ mr lang, r.data.get? "msg_receiver" = some mr
    ∧ r.data.get? "language" = some lang
    ∧ (valueEqStr mr "mother_only" = false →
        res = "2 SubscriptionRequests created"
        ∧ ∃ msub hsub, subsOf db'.events = subsOf db.events ++ [msub, hsub]
          ∧ (∃ rv, r.data.get? "receiver_id" = some rv ∧ hsub.identity = rv)
          ∧ hsub.metadata = [("prepend_next_delivery", householdAudioRef st lang)]
          ∧ (msgsOf db'.events).length ≤ (msgsOf db.events).length + 1)
    ∧ (valueEqStr mr "mother_only" = true →
        res = "1 SubscriptionRequest created"
        ∧ ∃ msub, subsOf db'.events = subsOf db.events ++ [msub]) := by
  obtain ⟨weeks, msg_type, lang, mr, mm, we, hweeks, hmt, hlang, hmr, hwelcome, hregs,
    hone, htwo⟩ := create_spec st env r db res db' h
  have hwe := welcomeStep_events st env r lang mm we hwelcome
  refine ⟨mr, lang, hmr, hlang, ?_, ?_⟩
  · intro hmo
    obtain ⟨hres, pw, rv, hpw, hrv, hwpw, hevents⟩ := htwo hmo
    refine ⟨hres, motherSubOf env r weeks msg_type lang mm,
      householdSubOf st env r msg_type lang pw pw rv, ?_, ⟨rv, hrv, rfl⟩, rfl, ?_⟩
    · rw [hevents, subsOf_append, subsOf_append, hwe.1]
      simp [subsOf]
    · rw [hevents, msgsOf_append, msgsOf_append]
      have : msgsOf [Event.sub (motherSubOf env r weeks msg_type lang mm),
          Event.sub (householdSubOf st env r msg_type lang pw pw rv)] = [] := rfl
      rw [this]
      simp only [List.append_nil, List.length_append]
      omega
  · intro hmo
    obtain ⟨hres, hevents⟩ := hone hmo
    refine ⟨hres, motherSubOf env r weeks msg_type lang mm, ?_⟩
    rw [hevents, subsOf_append, subsOf_append, hwe.1]
    simp [subsOf]

/-- Witness for C4 at a concrete validated friend-receiver registration. -/
theorem C4_household_subscription_witness :
    ∃ mr lang, regValidatedFriend.data.get? "msg_receiver" = some mr
    ∧ regValidatedFriend.data.get? "language" = some lang
    ∧ (valueEqStr mr "mother_only" = false →
        c4pair.1 = "2 SubscriptionRequests created"
        ∧ ∃ msub hsub, subsOf c4pair.2.events = subsOf dbEmpty.events ++ [msub, hsub]
          ∧ (∃ rv, regValidatedFriend.data.get? "receiver_id" = some rv
              ∧ hsub.identity = rv)
          ∧ hsub.metadata = [("prepend_next_delivery",
              householdAudioRef testSettings lang)]
          ∧ (msgsOf c4pair.2.events).length ≤ (msgsOf dbEmpty.events).length + 1)
    ∧ (valueEqStr mr "mother_only" = true →
        c4pair.1 = "1 SubscriptionRequest created"
        ∧ ∃ msub, subsOf c4pair.2.events = subsOf dbEmpty.events ++ [msub]) :=
  C4_household_subscription testSettings testEnv regValidatedFriend dbEmpty
    c4pair.1 c4pair.2 (by rfl)

/-- Counterexample for C5: a validated loss registration carries no
`voice_days`, yet no welcome text is ever dispatched for it and no
mother SubscriptionRequest is created: the welcome branch itself raises
`KeyError("msg_receiver")` at the `data["msg_receiver"]` subscript
(source line 232), and the whole of `create_subscriptionrequests` raises
(in the model already at the weeks helper, which finds neither
`preg_week` nor `baby_age`) — the claim's "otherwise dispatches" clause
fails on validated loss registrations. -/
theorem C5_counterexample :
    regLossValidated.validated = true
    ∧ voiceDaysSet regLossValidated = false
    ∧ welcomeStep testSettings testEnv regLossValidated (.s "eng_NG")
        = .error (.keyError "msg_receiver")
    ∧ create_subscriptionrequests testSettings testEnv regLossValidated dbEmpty
        = .error (.keyError "preg_week") :=
  ⟨rfl, rfl, rfl, rfl⟩

/-- Claim C5 (amended): for a normally-completing
`create_subscriptionrequests`, when the data carries a non-empty
`voice_days` the mother's SubscriptionRequest gets the
`prepend_next_delivery` welcome-audio metadata and no immediate message is
dispatched; otherwise the delivery address of the designated receiver (for
the single-recipient roles, else the mother) is resolved and a one-off
welcome text is dispatched before the mother's SubscriptionRequest is
created. Normal completion is a real restriction: per the counterexample,
a validated loss registration raises before any dispatch. -/
theorem C5_welcome_message (st : Settings) (env : Env) (r : Registration)
    (db : DB) (res : String) (db' : DB)
    (h : create_subscriptionrequests st env r db = .ok (res, db')) :
    ∃ lang, r.data.get? "language" = some lang
    ∧ (voiceDaysSet r = true →
        ∃ msub tail, db'.events = db.events ++ (Event.sub msub :: tail)
          ∧ msub.identity = .s r.mother_id
          ∧ msub.metadata = [("prepend_next_delivery", motherAudioRef st lang)]
          ∧ msgsOf (Event.sub msub :: tail) = [])
    ∧ (voiceDaysSet r = false →
        ∃ p msub tail, db'.events = db.events ++ (Event.msg p :: Event.sub msub :: tail)
          ∧ p.content = st.MOTHER_WELCOME_TEXT_NG_ENG
          ∧ msub.identity = .s r.mother_id
          ∧ msgsOf (Event.sub msub :: tail) = []
          ∧ ∃ mr, r.data.get? "msg_receiver" = some mr
            ∧ (valueIn mr ["father_only", "friend_only", "family_only"] = true →
                ∃ rv, r.data.get? "receiver_id" = some rv
                  ∧ p.to_addr = env.get_identity_address rv)
            ∧ (valueIn mr ["father_only", "friend_only", "family_only"] = false →
                p.to_addr = env.get_identity_address (.s r.mother_id))) := by
  obtain ⟨weeks, msg_type, lang, mr, mm, we, hweeks, hmt, hlang, hmr, hwelcome, hregs,
    hone, htwo⟩ := create_spec st env r db res db' h
  have hws := welcomeStep_spec st env r lang mm we hwelcome
  have hevents : ∃ tail, db'.events = db.events ++ we
      ++ [Event.sub (motherSubOf env r weeks msg_type lang mm)] ++ tail
      ∧ msgsOf tail = [] := by
    by_cases hmo : valueEqStr mr "mother_only" = true
    · obtain ⟨_, hev⟩ := hone hmo
      exact ⟨[], by rw [hev]; simp, rfl⟩
    · have hmo2 : valueEqStr mr "mother_only" = false := by
        cases hx : valueEqStr mr "mother_only"
        · rfl
        · exact absurd hx hmo
      obtain ⟨_, pw, rv, hpw, hrv, hwpw, hev⟩ := htwo hmo2
      refine ⟨[Event.sub (householdSubOf st env r msg_type lang pw pw rv)], ?_, rfl⟩
      rw [hev]
      simp
  obtain ⟨tail, hev, htail⟩ := hevents
  refine ⟨lang, hlang, ?_, ?_⟩
  · intro hv
    obtain ⟨hmm, hwe⟩ := hws.1 hv
    refine ⟨motherSubOf env r weeks msg_type lang mm, tail, ?_, rfl, ?_, ?_⟩
    · rw [hev, hwe]
      simp
    · rw [hmm]
      rfl
    · show msgsOf ([Event.sub (motherSubOf env r weeks msg_type lang mm)] ++ tail) = []
      rw [msgsOf_append, htail]
      rfl
  · intro hv
    obtain ⟨hmm, mr2, hmr2, p, hwe, hpc, hpin, hpout⟩ := hws.2 hv
    have hmr2eq : mr2 = mr := by
      rw [hmr] at hmr2
      simp only [Option.some.injEq] at hmr2
      exact hmr2.symm
    rw [hmr2eq] at hpin hpout
    refine ⟨p, motherSubOf env r weeks msg_type lang mm, tail, ?_, hpc, rfl, ?_,
      mr, hmr, hpin, hpout⟩
    · rw [hev, hwe]
      simp
    · show msgsOf ([Event.sub (motherSubOf env r weeks msg_type lang mm)] ++ tail) = []
      rw [msgsOf_append, htail]
      rfl

/-- Witness for C5 at a concrete validated voice registration. -/
theorem C5_welcome_message_witness :
    ∃ lang, regVoiceMother.data.get? "language" = some lang
    ∧ (voiceDaysSet regVoiceMother = true →
        ∃ msub tail, c5pair.2.events = dbEmpty.events ++ (Event.sub msub :: tail)
          ∧ msub.identity = .s regVoiceMother.mother_id
          ∧ msub.metadata = [("prepend_next_delivery",
              motherAudioRef testSettings lang)]
          ∧ msgsOf (Event.sub msub :: tail) = [])
    ∧ (voiceDaysSet regVoiceMother = false →
        ∃ p msub tail, c5pair.2.events
            = dbEmpty.events ++ (Event.msg p :: Event.sub msub :: tail)
          ∧ p.content = testSettings.MOTHER_WELCOME_TEXT_NG_ENG
          ∧ msub.identity = .s regVoiceMother.mother_id
          ∧ msgsOf (Event.sub msub :: tail) = []
          ∧ ∃ mr, regVoiceMother.data.get? "msg_receiver" = some mr
            ∧ (valueIn mr ["father_only", "friend_only", "family_only"] = true →
                ∃ rv, regVoiceMother.data.get? "receiver_id" = some rv
                  ∧ p.to_addr = testEnv.get_identity_address rv)
            ∧ (valueIn mr ["father_only", "friend_only", "family_only"] = false →
                p.to_addr = testEnv.get_identity_address (.s regVoiceMother.mother_id))) :=
  C5_welcome_message testSettings testEnv regVoiceMother dbEmpty
    c5pair.1 c5pair.2 (by rfl)

theorem validate_true_stage (st : Settings) (today : Int) (r r' : Registration)
    (h : validate st today r = .ok (true, r')) :
    validateStage st today r = .ok (true, r') := by
  unfold validate at h
  split at h
  · simp at h
  · split at h
    next mr hmr =>
      split at h
      · split at h
        · exact Except.noConfusion h
        next rid hrid =>
          split at h
          · simp at h
          · exact h
      · split at h
        · split at h
          · exact Except.noConfusion h
          next rid hrid =>
            split at h
            · simp at h
            · exact h
        · exact h
    next hmr => exact h

theorem create_unfold_household (st : Settings) (env : Env) (r : Registration) (db : DB)
    (weeks mt lg mr : Value) (mm : List (String × String)) (we : List Event)
    (hweeks : r.get_weeks_pregnant_or_age = .ok weeks)
    (hmt : r.data.get? "msg_type" = some mt)
    (hlg : r.data.get? "language" = some lg)
    (hws : welcomeStep st env r lg = .ok (mm, we))
    (hmr : r.data.get? "msg_receiver" = some mr)
    (hmo : valueEqStr mr "mother_only" = false) :
    create_subscriptionrequests st env r db
      = householdStep st env r mt lg
          { db with
            events := db.events ++ we ++ [Event.sub (motherSubOf env r weeks mt lg mm)] } := by
  unfold create_subscriptionrequests
  split
  next heq => rw [heq] at hweeks; exact Except.noConfusion hweeks
  next weeks2 heq =>
    rw [hweeks] at heq
    have hw : weeks2 = weeks := by
      simp only [Except.ok.injEq] at heq
      exact heq.symm
    subst hw
    split
    next heq2 => rw [Data.getItem_eq_some hmt] at heq2; exact Except.noConfusion heq2
    next mt2 heq2 =>
      rw [Data.getItem_eq_some hmt] at heq2
      have hm : mt2 = mt := by
        simp only [Except.ok.injEq] at heq2
        exact heq2.symm
      subst hm
      split
      next heq3 => rw [Data.getItem_eq_some hlg] at heq3; exact Except.noConfusion heq3
      next lg2 heq3 =>
        rw [Data.getItem_eq_some hlg] at heq3
        have hl : lg2 = lg := by
          simp only [Except.ok.injEq] at heq3
          exact heq3.symm
        subst hl
        split
        next heq4 => rw [hws] at heq4; exact Except.noConfusion heq4
        next mm2 we2 heq4 =>
          rw [hws] at heq4
          have hmw : mm2 = mm ∧ we2 = we := by
            simp only [Except.ok.injEq, Prod.mk.injEq] at heq4
            exact ⟨heq4.1.symm, heq4.2.symm⟩
          obtain ⟨hmw1, hmw2⟩ := hmw
          subst hmw1
          subst hmw2
          split
          next heq5 => rw [Data.getItem_eq_some hmr] at heq5; exact Except.noConfusion heq5
          next mr2 heq5 =>
            rw [Data.getItem_eq_some hmr] at heq5
            have hmreq : mr2 = mr := by
              simp only [Except.ok.injEq] at heq5
              exact heq5.symm
            subst hmreq
            rw [hmo]
            simp

theorem welcomeStep_voice (st : Settings) (env : Env) (r : Registration) (lg : Value)
    (hv : voiceDaysSet r = true) :
    welcomeStep st env r lg
      = .ok ([("prepend_next_delivery", motherAudioRef st lg)], []) := by
  unfold welcomeStep
  rw [hv]
  simp

theorem welcomeStep_text_single (st : Settings) (env : Env) (r : Registration)
    (lg mr rv : Value)
    (hv : voiceDaysSet r = false)
    (hmr : r.data.get? "msg_receiver" = some mr)
    (hin : valueIn mr ["father_only", "friend_only", "family_only"] = true)
    (hrv : r.data.get? "receiver_id" = some rv) :
    welcomeStep st env r lg
      = .ok ([], [.msg ⟨env.get_identity_address rv, st.MOTHER_WELCOME_TEXT_NG_ENG⟩]) := by
  unfold welcomeStep
  rw [hv]
  simp only [Bool.false_eq_true, if_false]
  rw [Data.getItem_eq_some hmr]
  simp [hin, Data.getItem_eq_some hrv]

theorem welcomeStep_text_mother (st : Settings) (env : Env) (r : Registration)
    (lg mr : Value)
    (hv : voiceDaysSet r = false)
    (hmr : r.data.get? "msg_receiver" = some mr)
    (hin : valueIn mr ["father_only", "friend_only", "family_only"] = false) :
    welcomeStep st env r lg
      = .ok ([], [.msg ⟨env.get_identity_address (.s r.mother_id),
                        st.MOTHER_WELCOME_TEXT_NG_ENG⟩]) := by
  unfold welcomeStep
  rw [hv]
  simp only [Bool.false_eq_true, if_false]
  rw [Data.getItem_eq_some hmr]
  simp [hin]

/-- Counterexample for C9: on a concrete mother-only registration both
runs succeed, the registration is already validated before the second run,
and the second run duplicates the stored SubscriptionRequest, so the set
after the second run differs from the set after the first. -/
theorem C9_counterexample :
    ValidateRegistration.run testSettings testEnv
        { registrations := [regPreMother], events := [] } 3 = .ok (c9run1.1, c9run1.2)
    ∧ c9run1.1 = "Validation completed - Success"
    ∧ ValidateRegistration.run testSettings testEnv c9run1.2 3 = .ok (c9run2.1, c9run2.2)
    ∧ c9run2.1 = "Validation completed - Success"
    ∧ c9run1.2.registrations.find? (fun x => x.id == 3) = some regPreMotherValidated
    ∧ regPreMotherValidated.validated = true
    ∧ subsOf c9run2.2.events ≠ subsOf c9run1.2.events
    ∧ subsOf c9run2.2.events = subsOf c9run1.2.events ++ subsOf c9run1.2.events
    ∧ subsOf c9run1.2.events ≠ [] := by
  refine ⟨by rfl, by rfl, by rfl, by rfl, by rfl, by rfl, by decide, by rfl, by decide⟩

/-- Claim C9 (amended): the entry point has no re-validation guard: a run
on a state whose registration is already validated that completes with the
Success status appends further SubscriptionRequests, strictly growing the
stored set instead of leaving it unchanged. -/
theorem C9_rerun_appends (st : Settings) (env : Env) (db1 : DB) (rid : Nat)
    (r : Registration) (db2 : DB)
    (hfound : db1.registrations.find? (fun x => x.id == rid) = some r)
    (hvalidated : r.validated = true)
    (h2 : ValidateRegistration.run st env db1 rid
      = .ok ("Validation completed - Success", db2)) :
    (subsOf db1.events).length < (subsOf db2.events).length := by
  unfold ValidateRegistration.run at h2
  split at h2
  · exact Except.noConfusion h2
  next r2 hf2 =>
    split at h2
    · exact Except.noConfusion h2
    next b r1 hval =>
      cases b with
      | false =>
          rw [if_neg (by decide)] at h2
          have hstr := ((Prod.mk.injEq _ _ _ _ ▸ (Except.ok.injEq _ _ ▸ h2)).1)
          exact absurd hstr (by decide)
      | true =>
          rw [if_pos rfl] at h2
          split at h2
          · exact Except.noConfusion h2
          next s db' hcre =>
            have hdb2 : db2 = db' :=
              ((Prod.mk.injEq _ _ _ _ ▸ (Except.ok.injEq _ _ ▸ h2)).2).symm
            obtain ⟨weeks, msg_type, lang, mr, mm, we, hweeks, hmt, hlang, hmr, hwelcome,
              hregs, hone, htwo⟩ := create_spec st env r1 (db1.save r1) s db' hcre
            have hwe := welcomeStep_events st env r1 lang mm we hwelcome
            have hev : ∃ tailEvents, db'.events = (db1.save r1).events ++ we
                ++ [Event.sub (motherSubOf env r1 weeks msg_type lang mm)] ++ tailEvents := by
              by_cases hmo : valueEqStr mr "mother_only" = true
              · obtain ⟨_, hev⟩ := hone hmo
                exact ⟨[], by rw [hev]; simp⟩
              · have hmo2 : valueEqStr mr "mother_only" = false := by
                  cases hx : valueEqStr mr "mother_only"
                  · rfl
                  · exact absurd hx hmo
                obtain ⟨_, pw, rv, _, _, _, hev⟩ := htwo hmo2
                refine ⟨[Event.sub (householdSubOf st env r1 msg_type lang pw pw rv)], ?_⟩
                rw [hev]
                simp
            obtain ⟨tailEvents, hev⟩ := hev
            rw [hdb2, hev, DB.events_save]
            rw [subsOf_append, subsOf_append, subsOf_append, hwe.1]
            simp only [List.length_append, List.append_nil]
            have : subsOf [Event.sub (motherSubOf env r1 weeks msg_type lang mm)]
                = [motherSubOf env r1 weeks msg_type lang mm] := rfl
            rw [this]
            simp only [List.length_cons, List.length_nil]
            omega

/-- Witness for C9's amended theorem at the concrete duplicated run. -/
theorem C9_rerun_appends_witness :
    (subsOf c9run1.2.events).length < (subsOf c9run2.2.events).length :=
  C9_rerun_appends testSettings testEnv c9run1.2 3 regPreMotherValidated c9run2.2
    (by rfl) (by rfl) (by rfl)

/-- Claim C10: the postbirth success path of `validate` writes `baby_age`
and never touches `preg_week`; yet the household branch of
`create_subscriptionrequests` reads `data["preg_week"]` unconditionally,
so for a registration with `baby_age` but no `preg_week` and a receiver
other than mother_only it raises `KeyError("preg_week")` instead of
creating the second SubscriptionRequest. -/
theorem C10_postbirth_household_keyerror :
    (∀ (st : Settings) (today : Int) (r r' : Registration),
      r.stage = "postbirth" →
      validate st today r = .ok (true, r') →
      (∃ v, r'.data.get? "baby_age" = some v)
      ∧ r'.data.get? "preg_week" = r.data.get? "preg_week")
    ∧ (∀ (st : Settings) (env : Env) (r : Registration) (db : DB) (mt lg mr ba : Value),
      r.data.get? "preg_week" = none →
      r.data.get? "baby_age" = some ba →
      r.data.get? "msg_type" = some mt →
      r.data.get? "language" = some lg →
      r.data.get? "msg_receiver" = some mr →
      valueEqStr mr "mother_only" = false →
      ((∃ vd, r.data.get? "voice_days" = some vd ∧ valueEqStr vd "" = false)
        ∨ (valueIn mr ["father_only", "friend_only", "family_only"] = true →
            ∃ rv, r.data.get? "receiver_id" = some rv)) →
      create_subscriptionrequests st env r db = .error (.keyError "preg_week")) := by
  constructor
  · intro st today r r' hstage hval
    have hs := validate_true_stage st today r r' hval
    unfold validateStage at hs
    rw [hstage] at hs
    rw [show (("postbirth" : String) == "prebirth") = false from rfl,
      show (("postbirth" : String) == "postbirth") = true from rfl,
      show (("postbirth" : String) == "loss") = false from rfl] at hs
    simp only [Bool.false_and, Bool.true_and, Bool.false_eq_true, if_false] at hs
    split at hs
    · split at hs
      · exact Except.noConfusion hs
      next invalid hinv =>
        split at hs
        · split at hs
          · exact Except.noConfusion hs
          next dob hdob =>
            simp only [Except.ok.injEq, Prod.mk.injEq, true_and] at hs
            constructor
            · refine ⟨.i (calc_baby_age today dob), ?_⟩
              rw [← hs]
              show ((r.setData "reg_type" (Value.s "hw_post")).setData "baby_age"
                (.i (calc_baby_age today dob))).data.get? "baby_age" = _
              rw [Registration.get?_setData, if_pos rfl]
            · rw [← hs]
              show ((r.setData "reg_type" (Value.s "hw_post")).setData "baby_age"
                (.i (calc_baby_age today dob))).data.get? "preg_week" = _
              rw [Registration.get?_setData, if_neg (by decide),
                Registration.get?_setData, if_neg (by decide)]
        · simp at hs
    · simp at hs
  · intro st env r db mt lg mr ba hpw hba hmt hlg hmr hmo hside
    have hweeks : r.get_weeks_pregnant_or_age = .ok ba := by
      unfold Registration.get_weeks_pregnant_or_age
      rw [hpw, hba]
    have hws : ∃ mm we, welcomeStep st env r lg = .ok (mm, we) := by
      by_cases hv : voiceDaysSet r = true
      · exact ⟨_, _, welcomeStep_voice st env r lg hv⟩
      · have hv2 : voiceDaysSet r = false := by
          cases hx : voiceDaysSet r
          · rfl
          · exact absurd hx hv
        by_cases hin : valueIn mr ["father_only", "friend_only", "family_only"] = true
        · have hrv : ∃ rv, r.data.get? "receiver_id" = some rv := by
            rcases hside with ⟨vd, hvd, hne⟩ | hrecv
            · exfalso
              have hvt : voiceDaysSet r = true := by
                unfold voiceDaysSet
                rw [hvd]
                show (!valueEqStr vd "") = true
                rw [hne]
                rfl
              rw [hvt] at hv2
              exact Bool.noConfusion hv2
            · exact hrecv hin
          obtain ⟨rv, hrv⟩ := hrv
          exact ⟨_, _, welcomeStep_text_single st env r lg mr rv hv2 hmr hin hrv⟩
        · have hin2 : valueIn mr ["father_only", "friend_only", "family_only"] = false := by
            cases hx : valueIn mr ["father_only", "friend_only", "family_only"]
            · rfl
            · exact absurd hx hin
          exact ⟨_, _, welcomeStep_text_mother st env r lg mr hv2 hmr hin2⟩
    obtain ⟨mm, we, hws⟩ := hws
    rw [create_unfold_household st env r db ba mt lg mr mm we hweeks hmt hlg hws hmr hmo]
    exact householdStep_keyError st env r mt lg _ ba hpw hba

/-- Witness for C10: the concrete postbirth registration validates and
writes `baby_age` only, and `create_subscriptionrequests` on the saved row
raises `KeyError("preg_week")`. -/
theorem C10_postbirth_household_keyerror_witness :
    ((∃ v, regPostValidated.data.get? "baby_age" = some v)
      ∧ regPostValidated.data.get? "preg_week" = regPost.data.get? "preg_week")
    ∧ create_subscriptionrequests testSettings testEnv regPostValidated dbEmpty
        = .error (.keyError "preg_week") :=
  ⟨C10_postbirth_household_keyerror.1 testSettings testToday regPost regPostValidated
      (by rfl) (by rfl),
   C10_postbirth_household_keyerror.2 testSettings testEnv regPostValidated dbEmpty
      (.s "text") (.s "eng_NG") (.s "friend_only") (.i 28)
      (by rfl) (by rfl) (by rfl) (by rfl) (by rfl) (by rfl)
      (Or.inr (fun _ => ⟨.s friendUuid, by rfl⟩))⟩

theorem checkLoop_acc (st : Settings) (today : Int) (rd : Data) (fields : List String)
    (acc : List String) :
    checkLoop st today rd fields acc
      = match checkLoop st today rd fields [] with
        | .error e => .error e
        | .ok L => .ok (acc ++ L) := by
  induction fields generalizing acc with
  | nil => simp [checkLoop]
  | cons f rest ih =>
      unfold checkLoop
      cases hf : fieldCheck st today rd f with
      | error e => simp
      | ok fs =>
          simp only
          rw [ih (acc ++ fs), ih ([] ++ fs)]
          cases checkLoop st today rd rest [] with
          | error e => rfl
          | ok L => simp [List.append_assoc]

theorem check_field_values_eq_all (st : Settings) (today : Int) (rd : Data)
    (fields : List String) :
    check_field_values st today fields rd
      = (fieldChecksAll st today rd fields).map List.flatten := by
  induction fields with
  | nil => rfl
  | cons f rest ih =>
      unfold check_field_values at ih ⊢
      unfold checkLoop fieldChecksAll
      cases hf : fieldCheck st today rd f with
      | error e => rfl
      | ok fs =>
          simp only
          rw [checkLoop_acc st today rd rest ([] ++ fs)]
          cases hrest : checkLoop st today rd rest [] with
          | error e =>
              rw [hrest] at ih
              cases hall : fieldChecksAll st today rd rest with
              | error e2 =>
                  have ih2 : (Except.error e : Except PyErr (List String))
                      = Except.error e2 := by rw [hall] at ih; exact ih
                  exact ih2
              | ok out =>
                  have ih2 : (Except.error e : Except PyErr (List String))
                      = Except.ok (List.flatten out) := by rw [hall] at ih; exact ih
                  exact Except.noConfusion ih2
          | ok L =>
              rw [hrest] at ih
              cases hall : fieldChecksAll st today rd rest with
              | error e2 =>
                  have ih2 : (Except.ok L : Except PyErr (List String))
                      = Except.error e2 := by rw [hall] at ih; exact ih
                  exact Except.noConfusion ih2
              | ok out =>
                  have ih2 : (Except.ok L : Except PyErr (List String))
                      = Except.ok (List.flatten out) := by rw [hall] at ih; exact ih
                  have hL : L = List.flatten out := by
                    simp only [Except.ok.injEq] at ih2
                    exact ih2
                  show (Except.ok (([] ++ fs) ++ L) : Except PyErr (List String))
                      = Except.ok (List.flatten (fs :: out))
                  rw [hL]
                  simp

theorem fieldChecksAll_mem (st : Settings) (today : Int) (rd : Data) :
    ∀ (fields : List String) (out : List (List String)),
      fieldChecksAll st today rd fields = .ok out →
      ∀ f ∈ fields, ∃ fs, fs ∈ out ∧ fieldCheck st today rd f = .ok fs := by
  intro fields
  induction fields with
  | nil =>
      intro out _ f hf
      exact absurd hf (List.not_mem_nil f)
  | cons a rest ih =>
      intro out hout f hf
      unfold fieldChecksAll at hout
      cases ha : fieldCheck st today rd a with
      | error e => rw [ha] at hout; exact Except.noConfusion hout
      | ok b =>
          rw [ha] at hout
          cases hM : fieldChecksAll st today rd rest with
          | error e =>
              rw [hM] at hout
              exact Except.noConfusion hout
          | ok bs =>
              rw [hM] at hout
              have hbout : out = b :: bs := by
                have hinj := hout
                simp only [Except.ok.injEq] at hinj
                exact hinj.symm
              rcases List.mem_cons.mp hf with hfa | hfr
              · exact ⟨b, by rw [hbout]; exact List.mem_cons_self b bs,
                  by rw [hfa]; exact ha⟩
              · obtain ⟨fs, hfs1, hfs2⟩ := ih bs hM f hfr
                exact ⟨fs, by rw [hbout]; exact List.mem_cons_of_mem b hfs1, hfs2⟩

/-- Claim C3: `check_field_values` examines every listed field without
short-circuiting — the outcome is the ordered concatenation of every
field's own failure markers, and each field's markers all appear in the
returned list — and for the date fields a malformed value contributes the
bare field name while a well-formed date out of the configured week range
contributes the descriptive "... out of range" string instead. -/
theorem C3_collects_all_failures (st : Settings) (today : Int) :
    (∀ (fields : List String) (rd : Data),
      check_field_values st today fields rd
        = (fieldChecksAll st today rd fields).map List.flatten)
    ∧ (∀ (fields : List String) (rd : Data) (L : List String) (f : String)
        (fs : List String),
      check_field_values st today fields rd = .ok L →
      f ∈ fields → fieldCheck st today rd f = .ok fs → ∀ x ∈ fs, x ∈ L)
    ∧ (∀ (rd : Data) (v : Value), rd.get? "last_period_date" = some v →
        is_valid_date_value v = false →
        fieldCheck st today rd "last_period_date" = .ok ["last_period_date"])
    ∧ (∀ (rd : Data) (v : Value), rd.get? "last_period_date" = some v →
        is_valid_date_value v = true →
        ¬(st.PREBIRTH_MIN_WEEKS ≤ calc_pregnancy_week_lmp today v
          ∧ calc_pregnancy_week_lmp today v ≤ st.PREBIRTH_MAX_WEEKS) →
        fieldCheck st today rd "last_period_date"
          = .ok ["last_period_date out of range"])
    ∧ (∀ (rd : Data) (v : Value), rd.get? "baby_dob" = some v →
        is_valid_date_value v = false →
        fieldCheck st today rd "baby_dob" = .ok ["baby_dob"])
    ∧ (∀ (rd : Data) (v : Value), rd.get? "baby_dob" = some v →
        is_valid_date_value v = true →
        ¬(st.POSTBIRTH_MIN_WEEKS ≤ calc_baby_age today v
          ∧ calc_baby_age today v ≤ st.POSTBIRTH_MAX_WEEKS) →
        fieldCheck st today rd "baby_dob" = .ok ["baby_dob out of range"]) := by
  refine ⟨fun fields rd => check_field_values_eq_all st today rd fields, ?_, ?_, ?_, ?_, ?_⟩
  · intro fields rd L f fs hL hf hfc x hx
    rw [check_field_values_eq_all] at hL
    cases hall : fieldChecksAll st today rd fields with
    | error e =>
        rw [hall] at hL
        exact Except.noConfusion hL
    | ok out =>
        rw [hall] at hL
        have hout : L = List.flatten out := by
          have hL2 : (Except.ok (List.flatten out) : Except PyErr (List String))
              = Except.ok L := hL
          simp only [Except.ok.injEq] at hL2
          exact hL2.symm
        obtain ⟨fs2, hfs2mem, hfs2⟩ := fieldChecksAll_mem st today rd fields out hall f hf
        have : fs2 = fs := by
          rw [hfc] at hfs2
          simp only [Except.ok.injEq] at hfs2
          exact hfs2.symm
        rw [hout]
        exact List.mem_flatten.mpr ⟨fs2, hfs2mem, this ▸ hx⟩
  · intro rd v hv hbad
    unfold fieldCheck
    rw [if_neg (by decide), if_neg (by decide), if_neg (by decide), if_pos (by decide),
      Data.getItem_eq_some hv]
    show (if (!is_valid_date_value v) = true then Except.ok ["last_period_date"]
          else if ("last_period_date" == "last_period_date") = true then
            if (decide (st.PREBIRTH_MIN_WEEKS ≤ calc_pregnancy_week_lmp today v)
                && decide (calc_pregnancy_week_lmp today v ≤ st.PREBIRTH_MAX_WEEKS)) = true
            then Except.ok [] else Except.ok ["last_period_date out of range"]
          else if (decide (st.POSTBIRTH_MIN_WEEKS ≤ calc_baby_age today v)
                && decide (calc_baby_age today v ≤ st.POSTBIRTH_MAX_WEEKS)) = true
            then Except.ok [] else Except.ok ["baby_dob out of range"])
        = Except.ok ["last_period_date"]
    rw [hbad]
    rw [if_pos (by decide)]
  · intro rd v hv hgood hrange
    unfold fieldCheck
    rw [if_neg (by decide), if_neg (by decide), if_neg (by decide), if_pos (by decide),
      Data.getItem_eq_some hv]
    show (if (!is_valid_date_value v) = true then Except.ok ["last_period_date"]
          else if ("last_period_date" == "last_period_date") = true then
            if (decide (st.PREBIRTH_MIN_WEEKS ≤ calc_pregnancy_week_lmp today v)
                && decide (calc_pregnancy_week_lmp today v ≤ st.PREBIRTH_MAX_WEEKS)) = true
            then Except.ok [] else Except.ok ["last_period_date out of range"]
          else if (decide (st.POSTBIRTH_MIN_WEEKS ≤ calc_baby_age today v)
                && decide (calc_baby_age today v ≤ st.POSTBIRTH_MAX_WEEKS)) = true
            then Except.ok [] else Except.ok ["baby_dob out of range"])
        = Except.ok ["last_period_date out of range"]
    rw [hgood]
    rw [if_neg (by decide), if_pos (by decide), if_neg (by
      simp only [Bool.and_eq_true, decide_eq_true_eq]
      exact hrange)]
  · intro rd v hv hbad
    unfold fieldCheck
    rw [if_neg (by decide), if_neg (by decide), if_neg (by decide), if_pos (by decide),
      Data.getItem_eq_some hv]
    show (if (!is_valid_date_value v) = true then Except.ok ["baby_dob"]
          else if ("baby_dob" == "last_period_date") = true then
            if (decide (st.PREBIRTH_MIN_WEEKS ≤ calc_pregnancy_week_lmp today v)
                && decide (calc_pregnancy_week_lmp today v ≤ st.PREBIRTH_MAX_WEEKS)) = true
            then Except.ok [] else Except.ok ["last_period_date out of range"]
          else if (decide (st.POSTBIRTH_MIN_WEEKS ≤ calc_baby_age today v)
                && decide (calc_baby_age today v ≤ st.POSTBIRTH_MAX_WEEKS)) = true
            then Except.ok [] else Except.ok ["baby_dob out of range"])
        = Except.ok ["baby_dob"]
    rw [hbad]
    rw [if_pos (by decide)]
  · intro rd v hv hgood hrange
    unfold fieldCheck
    rw [if_neg (by decide), if_neg (by decide), if_neg (by decide), if_pos (by decide),
      Data.getItem_eq_some hv]
    show (if (!is_valid_date_value v) = true then Except.ok ["baby_dob"]
          else if ("baby_dob" == "last_period_date") = true then
            if (decide (st.PREBIRTH_MIN_WEEKS ≤ calc_pregnancy_week_lmp today v)
                && decide (calc_pregnancy_week_lmp today v ≤ st.PREBIRTH_MAX_WEEKS)) = true
            then Except.ok [] else Except.ok ["last_period_date out of range"]
          else if (decide (st.POSTBIRTH_MIN_WEEKS ≤ calc_baby_age today v)
                && decide (calc_baby_age today v ≤ st.POSTBIRTH_MAX_WEEKS)) = true
            then Except.ok [] else Except.ok ["baby_dob out of range"])
        = Except.ok ["baby_dob out of range"]
    rw [hgood]
    rw [if_neg (by decide), if_neg (by decide), if_neg (by
      simp only [Bool.and_eq_true, decide_eq_true_eq]
      exact hrange)]

/-- Witness for C3 at concrete data with an out-of-range date. -/
theorem C3_collects_all_failures_witness :
    check_field_values testSettings testToday hw_pre badLmpData
      = (fieldChecksAll testSettings testToday badLmpData hw_pre).map List.flatten
    ∧ fieldCheck testSettings testToday badLmpData "last_period_date"
      = .ok ["last_period_date out of range"] :=
  ⟨(C3_collects_all_failures testSettings testToday).1 hw_pre badLmpData,
   (C3_collects_all_failures testSettings testToday).2.2.2.1 badLmpData (.s "20140202")
     (by rfl) (by rfl) (by decide)⟩

theorem mem_keys_of_get? {k : String} {v : Value} :
    ∀ (d : Data), d.get? k = some v → k ∈ Data.keys d := by
  intro d
  induction d with
  | nil =>
      intro h
      exact absurd h (by simp [Data.get?])
  | cons p rest ih =>
      intro h
      unfold Data.get? at h
      by_cases hp : (p.1 == k) = true
      · have hpk : p.1 = k := by simpa using hp
        show k ∈ p.1 :: Data.keys rest
        rw [hpk]
        exact List.mem_cons_self k _
      · rw [if_neg hp] at h
        exact List.mem_cons_of_mem _ (ih h)

theorem keys_contains_of_get? {k : String} {v : Value} (d : Data)
    (h : d.get? k = some v) : (Data.keys d).contains k = true := by
  rw [List.contains, List.elem_iff]
  exact mem_keys_of_get? d h

/-- Counterexample for C8: a registration whose `msg_receiver` names a
single-recipient role while `receiver_id` is absent makes `validate` raise
`KeyError("receiver_id")` — the run crashes rather than recording the
malformed field in `invalid_fields`. -/
theorem C8_counterexample :
    validate testSettings testToday regNoReceiverId
      = .error (.keyError "receiver_id") := by rfl

/-- Claim C8 (amended): a malformed value of a present field whose
validator tolerates its type — a non-string date — does not crash
validation: it fails `is_valid_date` and contributes its bare name to
`invalid_fields`, with `validate` returning false; but a malformed value
of a type a validator does not expect crashes the run: an int
`receiver_id` raises `TypeError` inside `is_valid_uuid` (`len()` of an
int), and per the counterexample an absent `receiver_id` beside a
single-recipient `msg_receiver` raises `KeyError`. -/
theorem C8_malformed_field_values :
    (∀ (st : Settings) (today : Int) (r : Registration) (n : Int) (s1 s2 : String)
        (lv mtv mrv : Value),
      is_valid_uuid r.mother_id = true →
      crossChecksPass r = true →
      r.stage = "prebirth" →
      ["hw_limited", "hw_full"].contains r.authority = true →
      r.data.get? "receiver_id" = some (.s s1) →
      r.data.get? "operator_id" = some (.s s2) →
      r.data.get? "language" = some lv →
      r.data.get? "msg_type" = some mtv →
      r.data.get? "msg_receiver" = some mrv →
      r.data.get? "last_period_date" = some (.i n) →
      ∃ r' L, validate st today r = .ok (false, r')
        ∧ r'.data.get? "invalid_fields" = some (.l L)
        ∧ "last_period_date" ∈ L
        ∧ r'.validated = r.validated)
    ∧ (∀ (st : Settings) (today : Int) (r : Registration) (n : Int),
      is_valid_uuid r.mother_id = true →
      crossChecksPass r = true →
      r.stage = "prebirth" →
      ["hw_limited", "hw_full"].contains r.authority = true →
      subsetOf hw_pre (Data.keys r.data) = true →
      r.data.get? "receiver_id" = some (.i n) →
      validate st today r = .error .typeError)
    ∧ (∀ n : Int, is_valid_date_value (.i n) = false)
    ∧ (∀ xs : List String, is_valid_date_value (.l xs) = false) := by
  refine ⟨?_, ?_, fun n => rfl, fun xs => rfl⟩
  intro st today r n s1 s2 lv mtv mrv h1 h2 hstage hauth hrid hop hlang hmt hmr hlmp
  have fc1 : fieldCheck st today r.data "receiver_id"
      = .ok (if is_valid_uuid s1 then [] else ["receiver_id"]) := by
    unfold fieldCheck
    rw [if_pos (by decide), Data.getItem_eq_some hrid]
    rfl
  have fc2 : fieldCheck st today r.data "operator_id"
      = .ok (if is_valid_uuid s2 then [] else ["operator_id"]) := by
    unfold fieldCheck
    rw [if_pos (by decide), Data.getItem_eq_some hop]
    rfl
  have fc3 : fieldCheck st today r.data "language"
      = .ok (if is_valid_lang_value st lv then [] else ["language"]) := by
    unfold fieldCheck
    rw [if_neg (by decide), if_pos (by decide), Data.getItem_eq_some hlang]
  have fc4 : fieldCheck st today r.data "msg_type"
      = .ok (if is_valid_msg_type_value st mtv then [] else ["msg_type"]) := by
    unfold fieldCheck
    rw [if_neg (by decide), if_neg (by decide), if_pos (by decide),
      Data.getItem_eq_some hmt]
  have fc5 : fieldCheck st today r.data "last_period_date"
      = .ok ["last_period_date"] := by
    unfold fieldCheck
    rw [if_neg (by decide), if_neg (by decide), if_neg (by decide), if_pos (by decide),
      Data.getItem_eq_some hlmp]
    rfl
  have fc6 : fieldCheck st today r.data "msg_receiver"
      = .ok (if is_valid_msg_receiver_value st mrv then [] else ["msg_receiver"]) := by
    unfold fieldCheck
    rw [if_neg (by decide), if_neg (by decide), if_neg (by decide), if_neg (by decide),
      if_pos (by decide), Data.getItem_eq_some hmr]
  have hall : fieldChecksAll st today r.data hw_pre
      = .ok [if is_valid_uuid s1 then [] else ["receiver_id"],
             if is_valid_uuid s2 then [] else ["operator_id"],
             if is_valid_lang_value st lv then [] else ["language"],
             if is_valid_msg_type_value st mtv then [] else ["msg_type"],
             ["last_period_date"],
             if is_valid_msg_receiver_value st mrv then [] else ["msg_receiver"]] := by
    show fieldChecksAll st today r.data
      ("receiver_id" :: "operator_id" :: "language" :: "msg_type"
        :: "last_period_date" :: "msg_receiver" :: []) = _
    simp only [fieldChecksAll, fc1, fc2, fc3, fc4, fc5, fc6]
  have hcheck : check_field_values st today hw_pre r.data
      = .ok ((if is_valid_uuid s1 then [] else ["receiver_id"])
          ++ ((if is_valid_uuid s2 then [] else ["operator_id"])
          ++ ((if is_valid_lang_value st lv then [] else ["language"])
          ++ ((if is_valid_msg_type_value st mtv then [] else ["msg_type"])
          ++ (["last_period_date"]
          ++ ((if is_valid_msg_receiver_value st mrv then [] else ["msg_receiver"])
          ++ [])))))) := by
    rw [check_field_values_eq_all, hall]
    rfl
  have hmem : "last_period_date"
      ∈ ((if is_valid_uuid s1 then [] else ["receiver_id"])
          ++ ((if is_valid_uuid s2 then [] else ["operator_id"])
          ++ ((if is_valid_lang_value st lv then [] else ["language"])
          ++ ((if is_valid_msg_type_value st mtv then [] else ["msg_type"])
          ++ (["last_period_date"]
          ++ ((if is_valid_msg_receiver_value st mrv then [] else ["msg_receiver"])
          ++ [])))))) := by
    simp [List.mem_append]
  have hsubset : subsetOf hw_pre (Data.keys r.data) = true := by
    unfold subsetOf
    rw [List.all_eq_true]
    intro f hf
    have hf2 : f = "receiver_id" ∨ f = "operator_id" ∨ f = "language" ∨ f = "msg_type"
        ∨ f = "last_period_date" ∨ f = "msg_receiver" := by
      simpa [hw_pre, fields_general] using hf
    rcases hf2 with rfl | rfl | rfl | rfl | rfl | rfl
    · exact keys_contains_of_get? r.data hrid
    · exact keys_contains_of_get? r.data hop
    · exact keys_contains_of_get? r.data hlang
    · exact keys_contains_of_get? r.data hmt
    · exact keys_contains_of_get? r.data hlmp
    · exact keys_contains_of_get? r.data hmr
  have hc : (r.stage == "prebirth" && ["hw_limited", "hw_full"].contains r.authority
      && subsetOf hw_pre r.data.keys) = true := by
    rw [hstage, hauth, hsubset]
    rfl
  have hstageval : validateStage st today r
      = .ok (false, r.setData "invalid_fields"
          (.l ((if is_valid_uuid s1 then [] else ["receiver_id"])
          ++ ((if is_valid_uuid s2 then [] else ["operator_id"])
          ++ ((if is_valid_lang_value st lv then [] else ["language"])
          ++ ((if is_valid_msg_type_value st mtv then [] else ["msg_type"])
          ++ (["last_period_date"]
          ++ ((if is_valid_msg_receiver_value st mrv then [] else ["msg_receiver"])
          ++ [])))))))) := by
    unfold validateStage
    rw [if_pos hc]
    simp only [hcheck]
    rw [if_neg (by
      simp only [beq_iff_eq]
      intro hLnil
      rw [hLnil] at hmem
      exact List.not_mem_nil _ hmem)]
  refine ⟨r.setData "invalid_fields" (.l ((if is_valid_uuid s1 then [] else ["receiver_id"])
          ++ ((if is_valid_uuid s2 then [] else ["operator_id"])
          ++ ((if is_valid_lang_value st lv then [] else ["language"])
          ++ ((if is_valid_msg_type_value st mtv then [] else ["msg_type"])
          ++ (["last_period_date"]
          ++ ((if is_valid_msg_receiver_value st mrv then [] else ["msg_receiver"])
          ++ []))))))),
    ((if is_valid_uuid s1 then [] else ["receiver_id"])
          ++ ((if is_valid_uuid s2 then [] else ["operator_id"])
          ++ ((if is_valid_lang_value st lv then [] else ["language"])
          ++ ((if is_valid_msg_type_value st mtv then [] else ["msg_type"])
          ++ (["last_period_date"]
          ++ ((if is_valid_msg_receiver_value st mrv then [] else ["msg_receiver"])
          ++ [])))))), ?_, ?_, hmem, ?_⟩
  · rw [validate_eq_stage st today r h1 h2]
    exact hstageval
  · rw [Registration.get?_setData, if_pos rfl]
  · rw [Registration.validated_setData]
  intro st today r n h1 h2 hstage hauth hsub hrid
  have fcr : fieldCheck st today r.data "receiver_id" = .error .typeError := by
    unfold fieldCheck
    rw [if_pos (by decide), Data.getItem_eq_some hrid]
    rfl
  have hcheck : check_field_values st today hw_pre r.data = .error .typeError := by
    show checkLoop st today r.data
      ("receiver_id" :: "operator_id" :: "language" :: "msg_type"
        :: "last_period_date" :: "msg_receiver" :: []) [] = .error .typeError
    simp only [checkLoop, fcr]
  have hc : (r.stage == "prebirth" && ["hw_limited", "hw_full"].contains r.authority
      && subsetOf hw_pre r.data.keys) = true := by
    rw [hstage, hauth, hsub]
    rfl
  rw [validate_eq_stage st today r h1 h2]
  unfold validateStage
  rw [if_pos hc]
  simp only [hcheck]

/-- Witness for C8's amended theorem at the concrete int-valued date and
the concrete int-valued receiver id. -/
theorem C8_malformed_field_values_witness :
    (∃ r' L, validate testSettings testToday regIntLmp = .ok (false, r')
      ∧ r'.data.get? "invalid_fields" = some (.l L)
      ∧ "last_period_date" ∈ L
      ∧ r'.validated = regIntLmp.validated)
    ∧ validate testSettings testToday regIntRid = .error .typeError
    ∧ is_valid_date_value (.i 20150202) = false :=
  ⟨C8_malformed_field_values.1 testSettings testToday regIntLmp 20150202
      friendUuid nurseUuid (.s "eng_NG") (.s "text") (.s "friend_only")
      (by decide) (by decide) (by rfl) (by rfl) (by rfl) (by rfl) (by rfl) (by rfl)
      (by rfl) (by rfl),
   C8_malformed_field_values.2.1 testSettings testToday regIntRid 12345
      (by decide) (by rfl) (by rfl) (by decide) (by rfl) (by rfl),
   C8_malformed_field_values.2.2.1 20150202⟩

/-! ## Claim C7: the dates `is_valid_date` accepts

`strptime(_, "%Y%m%d")` is more lenient than "8 digits": after four digits
of year, `%m` and `%d` each match one or two digits by regex backtracking,
first match wins, and leftover characters make the parse fail.  The
equivalence below settles `is_valid_date` against the declarative
`lenientOk`; the counterexample exhibits an accepted 7-character string. -/

theorem char_toNat_le_of_le {a b : Char} (h : a ≤ b) : a.toNat ≤ b.toNat := by
  rw [Char.le_def, UInt32.le_def, BitVec.le_def] at h
  exact h

theorem uint32_toNat_le_of_le {a b : UInt32} (h : a ≤ b) : a.toNat ≤ b.toNat := by
  rw [UInt32.le_def, BitVec.le_def] at h
  exact h

theorem isDigit_toNat {c : Char} (h : c.isDigit = true) :
    48 ≤ c.toNat ∧ c.toNat ≤ 57 := by
  unfold Char.isDigit at h
  simp only [Bool.and_eq_true, decide_eq_true_eq, ge_iff_le] at h
  exact ⟨uint32_toNat_le_of_le h.1, uint32_toNat_le_of_le h.2⟩

theorem oneDigitNum_toNat {c : Char} (h : oneDigitNum c = true) :
    49 ≤ c.toNat ∧ c.toNat ≤ 57 := by
  unfold oneDigitNum at h
  simp only [Bool.and_eq_true, decide_eq_true_eq] at h
  exact ⟨char_toNat_le_of_le h.1, char_toNat_le_of_le h.2⟩

theorem oneDigitNum_val {c : Char} (h : oneDigitNum c = true) :
    1 ≤ digitVal c ∧ digitVal c ≤ 9 := by
  have := oneDigitNum_toNat h
  unfold digitVal
  omega

theorem head?_mem {α : Type} {l : List α} {a : α} (h : l.head? = some a) : a ∈ l := by
  cases l with
  | nil => simp at h
  | cons x xs =>
      simp only [List.head?_cons, Option.some.injEq] at h
      subst h
      exact List.mem_cons_self x xs

theorem mem_monthParses_len {cs : List Char} {p : Nat × List Char}
    (h : p ∈ monthParses cs) : cs.length ≤ p.2.length + 2 := by
  match cs with
  | [] => simp [monthParses] at h
  | [c1] =>
      simp only [monthParses, List.mem_append, List.mem_ite_nil_right,
        List.mem_singleton, List.not_mem_nil, false_or] at h
      rcases h with ⟨_, rfl⟩
      simp
  | c1 :: c2 :: rest =>
      simp only [monthParses, List.mem_append, List.mem_ite_nil_right,
        List.mem_singleton] at h
      rcases h with (⟨_, rfl⟩ | ⟨_, rfl⟩) | ⟨_, rfl⟩ <;> simp

theorem mem_dayParses_len {cs : List Char} {p : Nat × List Char}
    (h : p ∈ dayParses cs) : cs.length ≤ p.2.length + 2 := by
  match cs with
  | [] => simp [dayParses] at h
  | [c1] =>
      simp only [dayParses, List.mem_append, List.mem_ite_nil_right,
        List.mem_singleton, List.not_mem_nil, false_or] at h
      rcases h with ⟨_, rfl⟩
      simp
  | c1 :: c2 :: rest =>
      simp only [dayParses, List.mem_append, List.mem_ite_nil_right,
        List.mem_singleton] at h
      rcases h with ((⟨_, rfl⟩ | ⟨_, rfl⟩) | ⟨_, rfl⟩) | ⟨_, rfl⟩ <;> simp

theorem firstMD_rem {cs : List Char} {m d : Nat} {rem : List Char}
    (h : firstMD cs = some (m, d, rem)) : cs.length ≤ rem.length + 4 := by
  unfold firstMD at h
  have hmem := head?_mem h
  rcases List.mem_flatMap.1 hmem with ⟨p, hp, hq⟩
  rcases List.mem_map.1 hq with ⟨q, hq2, hq3⟩
  have h1 := mem_monthParses_len hp
  have h2 := mem_dayParses_len hq2
  have hrem : rem = q.2 := by
    have := congrArg (fun t => t.2.2) hq3
    simpa using this.symm
  subst hrem
  omega

theorem firstMD_two (a b : Char) :
    firstMD [a, b] =
      if (oneDigitNum a && oneDigitNum b) = true
      then some (digitVal a, digitVal b, []) else none := by
  unfold firstMD monthParses dayParses oneDigitNum
  simp only [List.flatMap_append, List.flatMap_cons, List.flatMap_nil, List.map_cons,
    List.map_nil, List.append_nil, List.nil_append]
  repeat' split
  all_goals try (simp_all; done)
  rename_i h1 h2 h3 h4
  rw [Bool.and_eq_true] at h4
  exact absurd h4.1 h3

theorem shape6 (c1 c2 c3 c4 a b : Char) :
    is_valid_date (String.mk [c1, c2, c3, c4, a, b])
      = lenientOk (String.mk [c1, c2, c3, c4, a, b]) := by
  show (if c1.isDigit && c2.isDigit && c3.isDigit && c4.isDigit then
          match firstMD [a, b] with
          | some (m, d, remaining) =>
              if remaining.isEmpty then
                if dateOk (digitVal c1 * 1000 + digitVal c2 * 100 + digitVal c3 * 10
                    + digitVal c4) m d
                then some (digitVal c1 * 1000 + digitVal c2 * 100 + digitVal c3 * 10
                    + digitVal c4, m, d)
                else none
              else none
          | none => none
        else none).isSome
    = (c1.isDigit && c2.isDigit && c3.isDigit && c4.isDigit
      && oneDigitNum a && oneDigitNum b
      && dateOk (digitVal c1 * 1000 + digitVal c2 * 100 + digitVal c3 * 10 + digitVal c4)
           (digitVal a) (digitVal b))
  by_cases hdig : (c1.isDigit && c2.isDigit && c3.isDigit && c4.isDigit) = true
  · rw [if_pos hdig, firstMD_two]
    by_cases hA : oneDigitNum a = true
    · by_cases hB : oneDigitNum b = true
      · rw [if_pos (by simp [hA, hB])]
        cases hdo : dateOk (digitVal c1 * 1000 + digitVal c2 * 100 + digitVal c3 * 10
            + digitVal c4) (digitVal a) (digitVal b) <;>
          simp [hdig, hA, hB, hdo]
      · rw [if_neg (by simp [hB])]
        simp [Bool.not_eq_true] at hB
        simp [hdig, hB]
    · rw [if_neg (by simp [hA])]
      simp [Bool.not_eq_true] at hA
      simp [hdig, hA]
  · rw [if_neg hdig]
    have hd' : (c1.isDigit && c2.isDigit && c3.isDigit && c4.isDigit) = false :=
      (Bool.not_eq_true _) ▸ hdig
    simp [hd']

theorem digitVal0 : digitVal '0' = 0 := rfl
theorem digitVal1 : digitVal '1' = 1 := rfl
theorem digitVal2 : digitVal '2' = 2 := rfl
theorem digitVal3 : digitVal '3' = 3 := rfl

theorem first_and {x y z : Bool} (h : (x && y && z) = true) : x = true := by
  simp only [Bool.and_eq_true] at h
  exact h.1.1

theorem monthParses_cons2 (a b : Char) (rest : List Char) :
    monthParses (a :: b :: rest) =
      ((if (a == '1' && decide ('0' ≤ b) && decide (b ≤ '2')) = true
        then [(10 + digitVal b, rest)] else [])
       ++ (if (a == '0' && decide ('1' ≤ b) && decide (b ≤ '9')) = true
        then [(digitVal b, rest)] else []))
      ++ (if (decide ('1' ≤ a) && decide (a ≤ '9')) = true
        then [(digitVal a, b :: rest)] else []) := by
  unfold monthParses
  rfl

theorem dayParses_cons2 (c d : Char) (rest : List Char) :
    dayParses (c :: d :: rest) =
      (((if (c == '3' && decide ('0' ≤ d) && decide (d ≤ '1')) = true
        then [(30 + digitVal d, rest)] else [])
       ++ (if (decide ('1' ≤ c) && decide (c ≤ '2') && (decide ('0' ≤ d) && decide (d ≤ '9'))) = true
        then [(10 * digitVal c + digitVal d, rest)] else []))
       ++ (if (c == '0' && decide ('1' ≤ d) && decide (d ≤ '9')) = true
        then [(digitVal d, rest)] else []))
      ++ (if (decide ('1' ≤ c) && decide (c ≤ '9')) = true
        then [(digitVal c, d :: rest)] else []) := by
  unfold dayParses
  rfl

theorem dayParses_single (c : Char) :
    dayParses [c] =
      if (decide ('1' ≤ c) && decide (c ≤ '9')) = true
      then [(digitVal c, [])] else [] := by
  unfold dayParses
  rfl

theorem dayParses_nil : dayParses [] = [] := rfl

theorem day3_false (v Y : Nat) (bb cc dd : Char) :
    (match (List.map (fun (q : Nat × List Char) => (v, q.1, q.2)) (dayParses [bb, cc, dd])).head? with
     | some (m, d', remaining) =>
         if remaining.isEmpty then
           if dateOk Y m d' then some (Y, m, d') else none
         else none
     | none => none).isSome = false := by
  cases hh : (List.map (fun (q : Nat × List Char) => (v, q.1, q.2)) (dayParses [bb, cc, dd])).head? with
  | none => rfl
  | some t =>
      have hmem := head?_mem hh
      rcases List.mem_map.1 hmem with ⟨q, hq, rfl⟩
      have hlen := mem_dayParses_len hq
      have hie : q.2.isEmpty = false := by
        cases hq2 : q.2 with
        | nil =>
            rw [hq2] at hlen
            simp at hlen
        | cons x xs => rfl
      simp [hie]

theorem shape8 (c1 c2 c3 c4 a b c d : Char) :
    is_valid_date (String.mk [c1, c2, c3, c4, a, b, c, d])
      = lenientOk (String.mk [c1, c2, c3, c4, a, b, c, d]) := by
  show (if c1.isDigit && c2.isDigit && c3.isDigit && c4.isDigit then
          match firstMD [a, b, c, d] with
          | some (m, d', remaining) =>
              if remaining.isEmpty then
                if dateOk (digitVal c1 * 1000 + digitVal c2 * 100 + digitVal c3 * 10
                    + digitVal c4) m d'
                then some (digitVal c1 * 1000 + digitVal c2 * 100 + digitVal c3 * 10
                    + digitVal c4, m, d')
                else none
              else none
          | none => none
        else none).isSome
    = (c1.isDigit && c2.isDigit && c3.isDigit && c4.isDigit
      && twoDigitMonth a b && twoDigitDay c d
      && dateOk (digitVal c1 * 1000 + digitVal c2 * 100 + digitVal c3 * 10 + digitVal c4)
           (charsVal2 a b) (charsVal2 c d))
  by_cases hdig : (c1.isDigit && c2.isDigit && c3.isDigit && c4.isDigit) = true
  case neg =>
    rw [if_neg hdig]
    have hd' : (c1.isDigit && c2.isDigit && c3.isDigit && c4.isDigit) = false :=
      (Bool.not_eq_true _) ▸ hdig
    simp [hd']
  case pos =>
  rw [if_pos hdig]
  unfold firstMD
  rw [monthParses_cons2]
  by_cases hP1 : (a == '1' && decide ('0' ≤ b) && decide (b ≤ '2')) = true
  · have ha : a = '1' := eq_of_beq (first_and hP1)
    have hP2 : (a == '0' && decide ('1' ≤ b) && decide (b ≤ '9')) = false := by
      subst ha
      rfl
    have hP3 : (decide ('1' ≤ a) && decide (a ≤ '9')) = true := by
      subst ha
      rfl
    have htdm : twoDigitMonth a b = true := by
      unfold twoDigitMonth
      rw [hP1]
      rfl
    have hM : charsVal2 a b = 10 + digitVal b := by
      subst ha
      simp [charsVal2, digitVal1]
    by_cases hT30 : (c == '3' && decide ('0' ≤ d) && decide (d ≤ '1')) = true
    · have hc3 : c = '3' := eq_of_beq (first_and hT30)
      have htdd : twoDigitDay c d = true := by
        unfold twoDigitDay
        rw [hT30]
        rfl
      have hD : charsVal2 c d = 30 + digitVal d := by
        subst hc3
        simp [charsVal2, digitVal3]
      simp only [hP1, hP2, hP3, hT30, dayParses_cons2 c d [], if_true, if_false,
        List.flatMap_append, List.flatMap_cons, List.flatMap_nil, List.map_cons, List.map_nil,
        List.map_append, List.singleton_append, List.cons_append, List.nil_append,
        List.append_nil, List.head?_cons, List.isEmpty_nil]
      rw [← hM, ← hD]
      cases hdo : dateOk (digitVal c1 * 1000 + digitVal c2 * 100 + digitVal c3 * 10
          + digitVal c4) (charsVal2 a b) (charsVal2 c d) <;>
        simp [hdo, hdig, htdm, htdd]
    · have hT30f : (c == '3' && decide ('0' ≤ d) && decide (d ≤ '1')) = false :=
        (Bool.not_eq_true _) ▸ hT30
      by_cases hT2 : (decide ('1' ≤ c) && decide (c ≤ '2')
          && (decide ('0' ≤ d) && decide (d ≤ '9'))) = true
      · have htdd : twoDigitDay c d = true := by
          unfold twoDigitDay
          rw [hT2]
          simp
        have hD : charsVal2 c d = 10 * digitVal c + digitVal d := rfl
        simp only [hP1, hP2, hP3, hT30f, hT2, dayParses_cons2 c d [], if_true, if_false,
          List.flatMap_append, List.flatMap_cons, List.flatMap_nil, List.map_cons, List.map_nil,
          List.map_append, List.singleton_append, List.cons_append, List.nil_append,
          List.append_nil, List.head?_cons, List.isEmpty_nil]
        rw [← hM, ← hD]
        cases hdo : dateOk (digitVal c1 * 1000 + digitVal c2 * 100 + digitVal c3 * 10
            + digitVal c4) (charsVal2 a b) (charsVal2 c d) <;>
          simp [hdo, hdig, htdm, htdd]
      · have hT2f : (decide ('1' ≤ c) && decide (c ≤ '2')
            && (decide ('0' ≤ d) && decide (d ≤ '9'))) = false :=
          (Bool.not_eq_true _) ▸ hT2
        by_cases hT0 : (c == '0' && decide ('1' ≤ d) && decide (d ≤ '9')) = true
        · have hc0 : c = '0' := eq_of_beq (first_and hT0)
          have htdd : twoDigitDay c d = true := by
            unfold twoDigitDay
            rw [hT0]
            simp
          have hD : charsVal2 c d = digitVal d := by
            subst hc0
            simp [charsVal2, digitVal0]
          simp only [hP1, hP2, hP3, hT30f, hT2f, hT0, dayParses_cons2 c d [], if_true, if_false,
            List.flatMap_append, List.flatMap_cons, List.flatMap_nil, List.map_cons, List.map_nil,
            List.map_append, List.singleton_append, List.cons_append, List.nil_append,
            List.append_nil, List.head?_cons, List.isEmpty_nil]
          rw [← hD, ← hM]
          cases hdo : dateOk (digitVal c1 * 1000 + digitVal c2 * 100 + digitVal c3 * 10
              + digitVal c4) (charsVal2 a b) (charsVal2 c d) <;>
            simp [hdo, hdig, htdm, htdd]
        · have hT0f : (c == '0' && decide ('1' ≤ d) && decide (d ≤ '9')) = false :=
            (Bool.not_eq_true _) ▸ hT0
          have htdd : twoDigitDay c d = false := by
            unfold twoDigitDay
            rw [hT30f, hT2f, hT0f]
            rfl
          by_cases hT1 : (decide ('1' ≤ c) && decide (c ≤ '9')) = true
          · simp only [hP1, hP2, hP3, hT30f, hT2f, hT0f, hT1, dayParses_cons2 c d [],
              if_true, if_false,
              List.flatMap_append, List.flatMap_cons, List.flatMap_nil, List.map_cons,
              List.map_nil, List.map_append, List.singleton_append, List.cons_append,
              List.nil_append, List.append_nil, List.head?_cons, List.isEmpty_cons]
            simp [htdd, hdig]
          · have hT1f : (decide ('1' ≤ c) && decide (c ≤ '9')) = false :=
              (Bool.not_eq_true _) ▸ hT1
            simp only [hP1, hP2, hP3, hT30f, hT2f, hT0f, hT1f, dayParses_cons2 c d [],
              if_true, if_false,
              List.flatMap_append, List.flatMap_cons, List.flatMap_nil, List.map_cons,
              List.map_nil, List.map_append, List.singleton_append, List.cons_append,
              List.nil_append, List.append_nil]
            exact (day3_false (digitVal a) (digitVal c1 * 1000 + digitVal c2 * 100
              + digitVal c3 * 10 + digitVal c4) b c d).trans (by simp [htdd, hdig])
  · have hP1f : (a == '1' && decide ('0' ≤ b) && decide (b ≤ '2')) = false :=
      (Bool.not_eq_true _) ▸ hP1
    by_cases hP2 : (a == '0' && decide ('1' ≤ b) && decide (b ≤ '9')) = true
    · have ha : a = '0' := eq_of_beq (first_and hP2)
      have hP3f : (decide ('1' ≤ a) && decide (a ≤ '9')) = false := by
        subst ha
        rfl
      have htdm : twoDigitMonth a b = true := by
        unfold twoDigitMonth
        rw [hP2]
        simp
      have hM : charsVal2 a b = digitVal b := by
        subst ha
        simp [charsVal2, digitVal0]
      by_cases hT30 : (c == '3' && decide ('0' ≤ d) && decide (d ≤ '1')) = true
      · have hc3 : c = '3' := eq_of_beq (first_and hT30)
        have htdd : twoDigitDay c d = true := by
          unfold twoDigitDay
          rw [hT30]
          rfl
        have hD : charsVal2 c d = 30 + digitVal d := by
          subst hc3
          simp [charsVal2, digitVal3]
        simp only [hP1f, hP2, hP3f, hT30, dayParses_cons2 c d [], if_true, if_false,
          List.flatMap_append, List.flatMap_cons, List.flatMap_nil, List.map_cons, List.map_nil,
          List.map_append, List.singleton_append, List.cons_append, List.nil_append,
          List.append_nil, List.head?_cons, List.isEmpty_nil]
        rw [← hM, ← hD]
        cases hdo : dateOk (digitVal c1 * 1000 + digitVal c2 * 100 + digitVal c3 * 10
            + digitVal c4) (charsVal2 a b) (charsVal2 c d) <;>
          simp [hdo, hdig, htdm, htdd]
      · have hT30f : (c == '3' && decide ('0' ≤ d) && decide (d ≤ '1')) = false :=
          (Bool.not_eq_true _) ▸ hT30
        by_cases hT2 : (decide ('1' ≤ c) && decide (c ≤ '2')
            && (decide ('0' ≤ d) && decide (d ≤ '9'))) = true
        · have htdd : twoDigitDay c d = true := by
            unfold twoDigitDay
            rw [hT2]
            simp
          have hD : charsVal2 c d = 10 * digitVal c + digitVal d := rfl
          simp only [hP1f, hP2, hP3f, hT30f, hT2, dayParses_cons2 c d [], if_true, if_false,
            List.flatMap_append, List.flatMap_cons, List.flatMap_nil, List.map_cons,
            List.map_nil, List.map_append, List.singleton_append, List.cons_append,
            List.nil_append, List.append_nil, List.head?_cons, List.isEmpty_nil]
          rw [← hM, ← hD]
          cases hdo : dateOk (digitVal c1 * 1000 + digitVal c2 * 100 + digitVal c3 * 10
              + digitVal c4) (charsVal2 a b) (charsVal2 c d) <;>
            simp [hdo, hdig, htdm, htdd]
        · have hT2f : (decide ('1' ≤ c) && decide (c ≤ '2')
              && (decide ('0' ≤ d) && decide (d ≤ '9'))) = false :=
            (Bool.not_eq_true _) ▸ hT2
          by_cases hT0 : (c == '0' && decide ('1' ≤ d) && decide (d ≤ '9')) = true
          · have hc0 : c = '0' := eq_of_beq (first_and hT0)
            have htdd : twoDigitDay c d = true := by
              unfold twoDigitDay
              rw [hT0]
              simp
            have hD : charsVal2 c d = digitVal d := by
              subst hc0
              simp [charsVal2, digitVal0]
            simp only [hP1f, hP2, hP3f, hT30f, hT2f, hT0, dayParses_cons2 c d [],
              if_true, if_false,
              List.flatMap_append, List.flatMap_cons, List.flatMap_nil, List.map_cons,
              List.map_nil, List.map_append, List.singleton_append, List.cons_append,
              List.nil_append, List.append_nil, List.head?_cons, List.isEmpty_nil]
            rw [← hD, ← hM]
            cases hdo : dateOk (digitVal c1 * 1000 + digitVal c2 * 100 + digitVal c3 * 10
                + digitVal c4) (charsVal2 a b) (charsVal2 c d) <;>
              simp [hdo, hdig, htdm, htdd]
          · have hT0f : (c == '0' && decide ('1' ≤ d) && decide (d ≤ '9')) = false :=
              (Bool.not_eq_true _) ▸ hT0
            have htdd : twoDigitDay c d = false := by
              unfold twoDigitDay
              rw [hT30f, hT2f, hT0f]
              rfl
            by_cases hT1 : (decide ('1' ≤ c) && decide (c ≤ '9')) = true
            · simp only [hP1f, hP2, hP3f, hT30f, hT2f, hT0f, hT1, dayParses_cons2 c d [],
                if_true, if_false,
                List.flatMap_append, List.flatMap_cons, List.flatMap_nil, List.map_cons,
                List.map_nil, List.map_append, List.singleton_append, List.cons_append,
                List.nil_append, List.append_nil, List.head?_cons, List.isEmpty_cons]
              simp [htdd, hdig]
            · have hT1f : (decide ('1' ≤ c) && decide (c ≤ '9')) = false :=
                (Bool.not_eq_true _) ▸ hT1
              simp only [hP1f, hP2, hP3f, hT30f, hT2f, hT0f, hT1f, dayParses_cons2 c d [],
                if_true, if_false,
                List.flatMap_append, List.flatMap_cons, List.flatMap_nil, List.map_cons,
                List.map_nil, List.map_append, List.singleton_append, List.cons_append,
                List.nil_append, List.append_nil, List.head?_nil]
              simp [htdd, hdig]
    · have hP2f : (a == '0' && decide ('1' ≤ b) && decide (b ≤ '9')) = false :=
        (Bool.not_eq_true _) ▸ hP2
      have htdm : twoDigitMonth a b = false := by
        unfold twoDigitMonth
        rw [hP1f, hP2f]
        rfl
      by_cases hP3 : (decide ('1' ≤ a) && decide (a ≤ '9')) = true
      · simp only [hP1f, hP2f, hP3, if_true, if_false,
          List.flatMap_append, List.flatMap_cons, List.flatMap_nil, List.map_cons,
          List.map_nil, List.map_append, List.singleton_append, List.cons_append,
          List.nil_append, List.append_nil]
        exact (day3_false (digitVal a) (digitVal c1 * 1000 + digitVal c2 * 100
          + digitVal c3 * 10 + digitVal c4) b c d).trans (by simp [htdm, hdig])
      · have hP3f : (decide ('1' ≤ a) && decide (a ≤ '9')) = false :=
          (Bool.not_eq_true _) ▸ hP3
        simp only [hP1f, hP2f, hP3f, if_true, if_false,
          List.flatMap_append, List.flatMap_cons, List.flatMap_nil, List.map_cons,
          List.map_nil, List.map_append, List.singleton_append, List.cons_append,
          List.nil_append, List.append_nil, List.head?_nil]
        simp [htdm, hdig]

theorem and3_parts {x y z : Bool} (h : (x && y && z) = true) :
    x = true ∧ y = true ∧ z = true := by
  simp only [Bool.and_eq_true] at h
  exact ⟨h.1.1, h.1.2, h.2⟩

theorem daysInMonth_ge {y m : Nat} : 28 ≤ daysInMonth y m := by
  unfold daysInMonth
  split
  · split <;> omega
  · split <;> omega

theorem dateOk_y {y m d : Nat} (h : dateOk y m d = true) : 1 ≤ y := by
  unfold dateOk at h
  simp only [Bool.and_eq_true, decide_eq_true_eq] at h
  exact h.1.1.1.1

theorem dateOk_of (y m d : Nat) (hy : 1 ≤ y) (hm1 : 1 ≤ m) (hm2 : m ≤ 12)
    (hd1 : 1 ≤ d) (hd2 : d ≤ 9) : dateOk y m d = true := by
  unfold dateOk
  simp only [Bool.and_eq_true, decide_eq_true_eq]
  refine ⟨⟨⟨⟨hy, hm1⟩, hm2⟩, hd1⟩, ?_⟩
  have := @daysInMonth_ge y m
  omega

theorem month_bounds_hi {b : Char} (h0 : '0' ≤ b) (h2 : b ≤ '2') :
    1 ≤ 10 + digitVal b ∧ 10 + digitVal b ≤ 12 := by
  have l := char_toNat_le_of_le h0
  have u := char_toNat_le_of_le h2
  have e0 : ('0' : Char).toNat = 48 := rfl
  have e2 : ('2' : Char).toNat = 50 := rfl
  rw [e0] at l
  rw [e2] at u
  unfold digitVal
  omega

theorem shape7 (c1 c2 c3 c4 a b c : Char) :
    is_valid_date (String.mk [c1, c2, c3, c4, a, b, c])
      = lenientOk (String.mk [c1, c2, c3, c4, a, b, c]) := by
  show (if c1.isDigit && c2.isDigit && c3.isDigit && c4.isDigit then
          match firstMD [a, b, c] with
          | some (m, d', remaining) =>
              if remaining.isEmpty then
                if dateOk (digitVal c1 * 1000 + digitVal c2 * 100 + digitVal c3 * 10
                    + digitVal c4) m d'
                then some (digitVal c1 * 1000 + digitVal c2 * 100 + digitVal c3 * 10
                    + digitVal c4, m, d')
                else none
              else none
          | none => none
        else none).isSome
    = (c1.isDigit && c2.isDigit && c3.isDigit && c4.isDigit
      && ((twoDigitMonth a b && oneDigitNum c
            && dateOk (digitVal c1 * 1000 + digitVal c2 * 100 + digitVal c3 * 10 + digitVal c4)
                 (charsVal2 a b) (digitVal c))
          || (oneDigitNum a && twoDigitDay b c
            && dateOk (digitVal c1 * 1000 + digitVal c2 * 100 + digitVal c3 * 10 + digitVal c4)
                 (digitVal a) (charsVal2 b c))))
  by_cases hdig : (c1.isDigit && c2.isDigit && c3.isDigit && c4.isDigit) = true
  case neg =>
    rw [if_neg hdig]
    have hd' : (c1.isDigit && c2.isDigit && c3.isDigit && c4.isDigit) = false :=
      (Bool.not_eq_true _) ▸ hdig
    simp [hd']
  case pos =>
  rw [if_pos hdig]
  unfold firstMD
  rw [monthParses_cons2]
  by_cases hP1 : (a == '1' && decide ('0' ≤ b) && decide (b ≤ '2')) = true
  · have ha : a = '1' := eq_of_beq (first_and hP1)
    have hP2 : (a == '0' && decide ('1' ≤ b) && decide (b ≤ '9')) = false := by
      subst ha
      rfl
    have hP3 : (decide ('1' ≤ a) && decide (a ≤ '9')) = true := by
      subst ha
      rfl
    have honeA : oneDigitNum a = true := hP3
    have htdm : twoDigitMonth a b = true := by
      unfold twoDigitMonth
      rw [hP1]
      rfl
    have hM : charsVal2 a b = 10 + digitVal b := by
      subst ha
      simp [charsVal2, digitVal1]
    by_cases hc : (decide ('1' ≤ c) && decide (c ≤ '9')) = true
    · have hone : oneDigitNum c = true := hc
      simp only [hP1, hP2, hP3, hc, dayParses_single, if_true, if_false,
        List.flatMap_append, List.flatMap_cons, List.flatMap_nil, List.map_cons, List.map_nil,
        List.map_append, List.singleton_append, List.cons_append, List.nil_append,
        List.append_nil, List.head?_cons, List.isEmpty_nil]
      rw [← hM]
      cases hdo : dateOk (digitVal c1 * 1000 + digitVal c2 * 100 + digitVal c3 * 10
          + digitVal c4) (charsVal2 a b) (digitVal c)
      · obtain ⟨hb1, h0b, hb2⟩ := and3_parts hP1
        have hm12 : 1 ≤ charsVal2 a b ∧ charsVal2 a b ≤ 12 := by
          rw [hM]
          exact month_bounds_hi (of_decide_eq_true h0b) (of_decide_eq_true hb2)
        have hd9 := oneDigitNum_val hone
        have hy0 : digitVal c1 * 1000 + digitVal c2 * 100 + digitVal c3 * 10
            + digitVal c4 = 0 := by
          by_contra hne
          have hy : 1 ≤ digitVal c1 * 1000 + digitVal c2 * 100 + digitVal c3 * 10
              + digitVal c4 := Nat.one_le_iff_ne_zero.mpr hne
          have hok := dateOk_of _ _ _ hy hm12.1 hm12.2 hd9.1 hd9.2
          rw [hok] at hdo
          cases hdo
        have h2 : dateOk (digitVal c1 * 1000 + digitVal c2 * 100 + digitVal c3 * 10
            + digitVal c4) (digitVal a) (charsVal2 b c) = false := by
          cases hd2 : dateOk (digitVal c1 * 1000 + digitVal c2 * 100 + digitVal c3 * 10
              + digitVal c4) (digitVal a) (charsVal2 b c)
          · rfl
          · have := dateOk_y hd2
            omega
        simp [h2]
      · simp [hdig, htdm, hone]
    · have hcf : (decide ('1' ≤ c) && decide (c ≤ '9')) = false :=
        (Bool.not_eq_true _) ▸ hc
      have honef : oneDigitNum c = false := hcf
      by_cases hT30 : (b == '3' && decide ('0' ≤ c) && decide (c ≤ '1')) = true
      · have hb3 : b = '3' := eq_of_beq (first_and hT30)
        have htdd : twoDigitDay b c = true := by
          unfold twoDigitDay
          rw [hT30]
          rfl
        have hD : charsVal2 b c = 30 + digitVal c := by
          subst hb3
          simp [charsVal2, digitVal3]
        simp only [hP1, hP2, hP3, hcf, hT30, dayParses_single, dayParses_cons2 b c [],
          if_true, if_false,
          List.flatMap_append, List.flatMap_cons, List.flatMap_nil, List.map_cons, List.map_nil,
          List.map_append, List.singleton_append, List.cons_append, List.nil_append,
          List.append_nil, List.head?_cons, List.isEmpty_nil]
        rw [← hD]
        cases hdo : dateOk (digitVal c1 * 1000 + digitVal c2 * 100 + digitVal c3 * 10
            + digitVal c4) (digitVal a) (charsVal2 b c) <;>
          simp [hdo, hdig, honef, honeA, htdd]
      · have hT30f : (b == '3' && decide ('0' ≤ c) && decide (c ≤ '1')) = false :=
          (Bool.not_eq_true _) ▸ hT30
        by_cases hT2 : (decide ('1' ≤ b) && decide (b ≤ '2')
            && (decide ('0' ≤ c) && decide (c ≤ '9'))) = true
        · have htdd : twoDigitDay b c = true := by
            unfold twoDigitDay
            rw [hT2]
            simp
          have hD : charsVal2 b c = 10 * digitVal b + digitVal c := rfl
          simp only [hP1, hP2, hP3, hcf, hT30f, hT2, dayParses_single, dayParses_cons2 b c [],
            if_true, if_false,
            List.flatMap_append, List.flatMap_cons, List.flatMap_nil, List.map_cons,
            List.map_nil, List.map_append, List.singleton_append, List.cons_append,
            List.nil_append, List.append_nil, List.head?_cons, List.isEmpty_nil]
          rw [← hD]
          cases hdo : dateOk (digitVal c1 * 1000 + digitVal c2 * 100 + digitVal c3 * 10
              + digitVal c4) (digitVal a) (charsVal2 b c) <;>
            simp [hdo, hdig, honef, honeA, htdd]
        · have hT2f : (decide ('1' ≤ b) && decide (b ≤ '2')
              && (decide ('0' ≤ c) && decide (c ≤ '9'))) = false :=
            (Bool.not_eq_true _) ▸ hT2
          by_cases hT0 : (b == '0' && decide ('1' ≤ c) && decide (c ≤ '9')) = true
          · have hb0 : b = '0' := eq_of_beq (first_and hT0)
            have htdd : twoDigitDay b c = true := by
              unfold twoDigitDay
              rw [hT0]
              simp
            have hD : charsVal2 b c = digitVal c := by
              subst hb0
              simp [charsVal2, digitVal0]
            simp only [hP1, hP2, hP3, hcf, hT30f, hT2f, hT0, dayParses_single,
              dayParses_cons2 b c [], if_true, if_false,
              List.flatMap_append, List.flatMap_cons, List.flatMap_nil, List.map_cons,
              List.map_nil, List.map_append, List.singleton_append, List.cons_append,
              List.nil_append, List.append_nil, List.head?_cons, List.isEmpty_nil]
            rw [← hD]
            cases hdo : dateOk (digitVal c1 * 1000 + digitVal c2 * 100 + digitVal c3 * 10
                + digitVal c4) (digitVal a) (charsVal2 b c) <;>
              simp [hdo, hdig, honef, honeA, htdd]
          · have hT0f : (b == '0' && decide ('1' ≤ c) && decide (c ≤ '9')) = false :=
              (Bool.not_eq_true _) ▸ hT0
            have htdd : twoDigitDay b c = false := by
              unfold twoDigitDay
              rw [hT30f, hT2f, hT0f]
              rfl
            by_cases hT1 : (decide ('1' ≤ b) && decide (b ≤ '9')) = true
            · simp only [hP1, hP2, hP3, hcf, hT30f, hT2f, hT0f, hT1, dayParses_single,
                dayParses_cons2 b c [], if_true, if_false,
                List.flatMap_append, List.flatMap_cons, List.flatMap_nil, List.map_cons,
                List.map_nil, List.map_append, List.singleton_append, List.cons_append,
                List.nil_append, List.append_nil, List.head?_cons, List.isEmpty_cons]
              simp [honef, htdd]
            · have hT1f : (decide ('1' ≤ b) && decide (b ≤ '9')) = false :=
                (Bool.not_eq_true _) ▸ hT1
              simp only [hP1, hP2, hP3, hcf, hT30f, hT2f, hT0f, hT1f, dayParses_single,
                dayParses_cons2 b c [], if_true, if_false,
                List.flatMap_append, List.flatMap_cons, List.flatMap_nil, List.map_cons,
                List.map_nil, List.map_append, List.singleton_append, List.cons_append,
                List.nil_append, List.append_nil, List.head?_nil]
              simp [honef, htdd]
  · have hP1f : (a == '1' && decide ('0' ≤ b) && decide (b ≤ '2')) = false :=
      (Bool.not_eq_true _) ▸ hP1
    by_cases hP2 : (a == '0' && decide ('1' ≤ b) && decide (b ≤ '9')) = true
    · have ha : a = '0' := eq_of_beq (first_and hP2)
      have hP3f : (decide ('1' ≤ a) && decide (a ≤ '9')) = false := by
        subst ha
        rfl
      have honeAf : oneDigitNum a = false := hP3f
      have htdm : twoDigitMonth a b = true := by
        unfold twoDigitMonth
        rw [hP2]
        simp
      have hM : charsVal2 a b = digitVal b := by
        subst ha
        simp [charsVal2, digitVal0]
      by_cases hc : (decide ('1' ≤ c) && decide (c ≤ '9')) = true
      · have hone : oneDigitNum c = true := hc
        simp only [hP1f, hP2, hP3f, hc, dayParses_single, if_true, if_false,
          List.flatMap_append, List.flatMap_cons, List.flatMap_nil, List.map_cons,
          List.map_nil, List.map_append, List.singleton_append, List.cons_append,
          List.nil_append, List.append_nil, List.head?_cons, List.isEmpty_nil]
        rw [← hM]
        cases hdo : dateOk (digitVal c1 * 1000 + digitVal c2 * 100 + digitVal c3 * 10
            + digitVal c4) (charsVal2 a b) (digitVal c) <;>
          simp [hdo, hdig, htdm, hone, honeAf]
      · have hcf : (decide ('1' ≤ c) && decide (c ≤ '9')) = false :=
          (Bool.not_eq_true _) ▸ hc
        have honef : oneDigitNum c = false := hcf
        simp only [hP1f, hP2, hP3f, hcf, dayParses_single, if_true, if_false,
          List.flatMap_append, List.flatMap_cons, List.flatMap_nil, List.map_cons,
          List.map_nil, List.map_append, List.singleton_append, List.cons_append,
          List.nil_append, List.append_nil, List.head?_nil]
        simp [honef, honeAf]
    · have hP2f : (a == '0' && decide ('1' ≤ b) && decide (b ≤ '9')) = false :=
        (Bool.not_eq_true _) ▸ hP2
      have htdmf : twoDigitMonth a b = false := by
        unfold twoDigitMonth
        rw [hP1f, hP2f]
        rfl
      by_cases hP3 : (decide ('1' ≤ a) && decide (a ≤ '9')) = true
      · have honeA : oneDigitNum a = true := hP3
        by_cases hT30 : (b == '3' && decide ('0' ≤ c) && decide (c ≤ '1')) = true
        · have hb3 : b = '3' := eq_of_beq (first_and hT30)
          have htdd : twoDigitDay b c = true := by
            unfold twoDigitDay
            rw [hT30]
            rfl
          have hD : charsVal2 b c = 30 + digitVal c := by
            subst hb3
            simp [charsVal2, digitVal3]
          simp only [hP1f, hP2f, hP3, hT30, dayParses_cons2 b c [], if_true, if_false,
            List.flatMap_append, List.flatMap_cons, List.flatMap_nil, List.map_cons,
            List.map_nil, List.map_append, List.singleton_append, List.cons_append,
            List.nil_append, List.append_nil, List.head?_cons, List.isEmpty_nil]
          rw [← hD]
          cases hdo : dateOk (digitVal c1 * 1000 + digitVal c2 * 100 + digitVal c3 * 10
              + digitVal c4) (digitVal a) (charsVal2 b c) <;>
            simp [hdo, hdig, htdmf, honeA, htdd]
        · have hT30f : (b == '3' && decide ('0' ≤ c) && decide (c ≤ '1')) = false :=
            (Bool.not_eq_true _) ▸ hT30
          by_cases hT2 : (decide ('1' ≤ b) && decide (b ≤ '2')
              && (decide ('0' ≤ c) && decide (c ≤ '9'))) = true
          · have htdd : twoDigitDay b c = true := by
              unfold twoDigitDay
              rw [hT2]
              simp
            have hD : charsVal2 b c = 10 * digitVal b + digitVal c := rfl
            simp only [hP1f, hP2f, hP3, hT30f, hT2, dayParses_cons2 b c [], if_true, if_false,
              List.flatMap_append, List.flatMap_cons, List.flatMap_nil, List.map_cons,
              List.map_nil, List.map_append, List.singleton_append, List.cons_append,
              List.nil_append, List.append_nil, List.head?_cons, List.isEmpty_nil]
            rw [← hD]
            cases hdo : dateOk (digitVal c1 * 1000 + digitVal c2 * 100 + digitVal c3 * 10
                + digitVal c4) (digitVal a) (charsVal2 b c) <;>
              simp [hdo, hdig, htdmf, honeA, htdd]
          · have hT2f : (decide ('1' ≤ b) && decide (b ≤ '2')
                && (decide ('0' ≤ c) && decide (c ≤ '9'))) = false :=
              (Bool.not_eq_true _) ▸ hT2
            by_cases hT0 : (b == '0' && decide ('1' ≤ c) && decide (c ≤ '9')) = true
            · have hb0 : b = '0' := eq_of_beq (first_and hT0)
              have htdd : twoDigitDay b c = true := by
                unfold twoDigitDay
                rw [hT0]
                simp
              have hD : charsVal2 b c = digitVal c := by
                subst hb0
                simp [charsVal2, digitVal0]
              simp only [hP1f, hP2f, hP3, hT30f, hT2f, hT0, dayParses_cons2 b c [],
                if_true, if_false,
                List.flatMap_append, List.flatMap_cons, List.flatMap_nil, List.map_cons,
                List.map_nil, List.map_append, List.singleton_append, List.cons_append,
                List.nil_append, List.append_nil, List.head?_cons, List.isEmpty_nil]
              rw [← hD]
              cases hdo : dateOk (digitVal c1 * 1000 + digitVal c2 * 100 + digitVal c3 * 10
                  + digitVal c4) (digitVal a) (charsVal2 b c) <;>
                simp [hdo, hdig, htdmf, honeA, htdd]
            · have hT0f : (b == '0' && decide ('1' ≤ c) && decide (c ≤ '9')) = false :=
                (Bool.not_eq_true _) ▸ hT0
              have htdd : twoDigitDay b c = false := by
                unfold twoDigitDay
                rw [hT30f, hT2f, hT0f]
                rfl
              by_cases hT1 : (decide ('1' ≤ b) && decide (b ≤ '9')) = true
              · simp only [hP1f, hP2f, hP3, hT30f, hT2f, hT0f, hT1, dayParses_cons2 b c [],
                  if_true, if_false,
                  List.flatMap_append, List.flatMap_cons, List.flatMap_nil, List.map_cons,
                  List.map_nil, List.map_append, List.singleton_append, List.cons_append,
                  List.nil_append, List.append_nil, List.head?_cons, List.isEmpty_cons]
                simp [htdmf, htdd]
              · have hT1f : (decide ('1' ≤ b) && decide (b ≤ '9')) = false :=
                  (Bool.not_eq_true _) ▸ hT1
                simp only [hP1f, hP2f, hP3, hT30f, hT2f, hT0f, hT1f, dayParses_cons2 b c [],
                  if_true, if_false,
                  List.flatMap_append, List.flatMap_cons, List.flatMap_nil, List.map_cons,
                  List.map_nil, List.map_append, List.singleton_append, List.cons_append,
                  List.nil_append, List.append_nil, List.head?_nil]
                simp [htdmf, htdd]
      · have hP3f : (decide ('1' ≤ a) && decide (a ≤ '9')) = false :=
          (Bool.not_eq_true _) ▸ hP3
        have honeAf : oneDigitNum a = false := hP3f
        simp only [hP1f, hP2f, hP3f, if_true, if_false,
          List.flatMap_append, List.flatMap_cons, List.flatMap_nil, List.map_cons,
          List.map_nil, List.map_append, List.singleton_append, List.cons_append,
          List.nil_append, List.append_nil, List.head?_nil]
        simp [htdmf, honeAf]

theorem firstMD_one (a : Char) : firstMD [a] = none := by
  unfold firstMD monthParses
  by_cases h : (decide ('1' ≤ a) && decide (a ≤ '9')) = true <;>
    simp [h, dayParses_nil]

theorem shape4 (c1 c2 c3 c4 : Char) :
    is_valid_date (String.mk [c1, c2, c3, c4])
      = lenientOk (String.mk [c1, c2, c3, c4]) := by
  show (if c1.isDigit && c2.isDigit && c3.isDigit && c4.isDigit then
          match firstMD [] with
          | some (m, d', remaining) =>
              if remaining.isEmpty then
                if dateOk (digitVal c1 * 1000 + digitVal c2 * 100 + digitVal c3 * 10
                    + digitVal c4) m d'
                then some (digitVal c1 * 1000 + digitVal c2 * 100 + digitVal c3 * 10
                    + digitVal c4, m, d')
                else none
              else none
          | none => none
        else none).isSome = false
  by_cases hdig : (c1.isDigit && c2.isDigit && c3.isDigit && c4.isDigit) = true
  · rw [if_pos hdig]
    rfl
  · rw [if_neg hdig]
    rfl

theorem shape5 (c1 c2 c3 c4 a : Char) :
    is_valid_date (String.mk [c1, c2, c3, c4, a])
      = lenientOk (String.mk [c1, c2, c3, c4, a]) := by
  show (if c1.isDigit && c2.isDigit && c3.isDigit && c4.isDigit then
          match firstMD [a] with
          | some (m, d', remaining) =>
              if remaining.isEmpty then
                if dateOk (digitVal c1 * 1000 + digitVal c2 * 100 + digitVal c3 * 10
                    + digitVal c4) m d'
                then some (digitVal c1 * 1000 + digitVal c2 * 100 + digitVal c3 * 10
                    + digitVal c4, m, d')
                else none
              else none
          | none => none
        else none).isSome = false
  by_cases hdig : (c1.isDigit && c2.isDigit && c3.isDigit && c4.isDigit) = true
  · rw [if_pos hdig, firstMD_one]
    rfl
  · rw [if_neg hdig]
    rfl

theorem shape_long (c1 c2 c3 c4 a b c d e : Char) (tl : List Char) :
    is_valid_date (String.mk (c1 :: c2 :: c3 :: c4 :: a :: b :: c :: d :: e :: tl))
      = lenientOk (String.mk (c1 :: c2 :: c3 :: c4 :: a :: b :: c :: d :: e :: tl)) := by
  show (if c1.isDigit && c2.isDigit && c3.isDigit && c4.isDigit then
          match firstMD (a :: b :: c :: d :: e :: tl) with
          | some (m, d', remaining) =>
              if remaining.isEmpty then
                if dateOk (digitVal c1 * 1000 + digitVal c2 * 100 + digitVal c3 * 10
                    + digitVal c4) m d'
                then some (digitVal c1 * 1000 + digitVal c2 * 100 + digitVal c3 * 10
                    + digitVal c4, m, d')
                else none
              else none
          | none => none
        else none).isSome = false
  by_cases hdig : (c1.isDigit && c2.isDigit && c3.isDigit && c4.isDigit) = true
  · rw [if_pos hdig]
    cases hfm : firstMD (a :: b :: c :: d :: e :: tl) with
    | none => rfl
    | some t =>
        obtain ⟨m, d', rem⟩ := t
        have hlen := firstMD_rem hfm
        simp only [List.length_cons] at hlen
        have hie : rem.isEmpty = false := by
          cases hrem : rem with
          | nil =>
              rw [hrem] at hlen
              simp only [List.length_nil] at hlen
              omega
          | cons x xs => rfl
        simp [hie]
  · rw [if_neg hdig]
    rfl

theorem is_valid_date_eq_lenientOk (s : String) : is_valid_date s = lenientOk s := by
  obtain ⟨data⟩ := s
  match data with
  | [] => rfl
  | [c1] => rfl
  | [c1, c2] => rfl
  | [c1, c2, c3] => rfl
  | [c1, c2, c3, c4] => exact shape4 c1 c2 c3 c4
  | [c1, c2, c3, c4, a] => exact shape5 c1 c2 c3 c4 a
  | [c1, c2, c3, c4, a, b] => exact shape6 c1 c2 c3 c4 a b
  | [c1, c2, c3, c4, a, b, c] => exact shape7 c1 c2 c3 c4 a b c
  | [c1, c2, c3, c4, a, b, c, d] => exact shape8 c1 c2 c3 c4 a b c d
  | c1 :: c2 :: c3 :: c4 :: a :: b :: c :: d :: e :: tl =>
      exact shape_long c1 c2 c3 c4 a b c d e tl

/-- Counterexample for C7: the 7-character string "1983023" is accepted by
`is_valid_date` (as 1983-02-03: month `02`, day `3`), so acceptance is not
limited to 8-character strings. -/
theorem C7_counterexample :
    is_valid_date "1983023" = true ∧ ¬("1983023".length = 8) := by
  constructor
  · rfl
  · decide

/-- Claim C7 (amended): `is_valid_date` never raises, rejects every
non-string, and accepts exactly the strings of four digits of year followed
by a one- or two-digit month and day in `strptime`'s backtracking digit
patterns that together cover the rest of the string and denote a real
calendar day of a year at least 1 ("19830229" is still rejected because
1983 is not a leap year, but 6- and 7-character strings such as "198311"
are accepted). -/
theorem C7_lenient_date_validation :
    ∀ v : Value, is_valid_date_value v
      = (match v with
         | Value.s u => lenientOk u
         | Value.i _ => false
         | Value.l _ => false) := by
  intro v
  cases v with
  | s u => exact is_valid_date_eq_lenientOk u
  | i n => rfl
  | l xs => rfl
